import Mathlib

/-!
# WCompany front end: session layer

A shallow embedding of the session logic of the front end:

* `src/Frontend/src/services/api.js`: the axios instance `api`, its request
  interceptor (bearer credential) and its response interceptor (refresh on 401);
* `src/Frontend/src/context/AuthContext.jsx`: the state of `AuthProvider`, its
  initialization effect, its operations and the hook `useAuth`;
* `src/Frontend/src/router/AppRouter.jsx`: the guards `ProtectedRoute` and
  `PublicRoute`;
* `src/Frontend/src/pages/Auth/Login.jsx`, `Register.jsx`: the form validation;
* `src/Frontend/src/pages/OrdersPage.jsx`: the filter of the order list.

Browser state (`localStorage`, `window.location.href`) and the network are made
explicit: every function takes the state of the world and returns the new one.
The remote API is an arbitrary function of the calls made so far and of the
current call, and every call that reaches the network is appended to a log.
-/

set_option autoImplicit false

namespace WCompany

/-! ## Key/value stores (`localStorage`, header objects) -/

/-- A string-keyed store of strings: `localStorage`, or the headers of a request. -/
abbrev Dict := List (String × String)

namespace Dict

/-- The value of `localStorage.getItem(k)`: `none` stands for JavaScript `null`. -/
def getItem (d : Dict) (k : String) : Option String :=
  match d with
  | [] => none
  | (k', v) :: rest => if k' = k then some v else getItem rest k

/-- The effect of `localStorage.removeItem(k)`. -/
def removeItem (d : Dict) (k : String) : Dict :=
  match d with
  | [] => []
  | (k', v) :: rest => if k' = k then removeItem rest k else (k', v) :: removeItem rest k

/-- The effect of `localStorage.setItem(k, v)` (also of `headers[k] = v`). -/
def setItem (d : Dict) (k v : String) : Dict :=
  (k, v) :: removeItem d k

end Dict

/-- JavaScript truthiness of the result of `localStorage.getItem`: neither `null`
nor the empty string. -/
def truthy : Option String → Bool
  | none => false
  | some s => s != ""

/-! ## JavaScript values seen by the session layer -/

/-- The values carried by response bodies and by the in-memory user. Arrays and
fractional numbers are left out: the session layer only reads properties,
converts to a string and tests truthiness. -/
inductive JVal where
  | undefined
  | null
  | bool (b : Bool)
  | num (n : Int)
  | str (s : String)
  | obj (fields : List (String × JVal))

namespace JVal

/-- Property lookup in the field list of an object; a missing property is `undefined`. -/
def field (fields : List (String × JVal)) (k : String) : JVal :=
  match fields with
  | [] => undefined
  | (k', v) :: rest => if k' = k then v else field rest k

/-- Destructuring `const { k } = v`: `none` stands for the `TypeError` thrown when
`v` is `null` or `undefined`; a primitive has no own property `k`. -/
def getProp (v : JVal) (k : String) : Option JVal :=
  match v with
  | undefined => none
  | null => none
  | obj fields => some (field fields k)
  | _ => some undefined

/-- JavaScript `ToString`, as applied by a template literal and by
`localStorage.setItem` to its value argument. -/
def toJsString : JVal → String
  | undefined => "undefined"
  | null => "null"
  | bool true => "true"
  | bool false => "false"
  | num n => toString n
  | str s => s
  | obj _ => "[object Object]"

end JVal

/-! ## Requests, responses, errors -/

/-- An axios request configuration; `_retry` is the custom flag written by the
response interceptor (absent counts as `false`). -/
structure Config where
  url : String
  method : String
  baseURL : Option String
  timeout : Option Nat
  headers : Option Dict
  data : Option String
  _retry : Bool

/-- An HTTP response as delivered by axios. -/
structure Response where
  status : Nat
  data : JVal

/-- An axios error: the configuration of the failed request and the response, if
one was received (`none`: transport failure or timeout). -/
structure AxiosError where
  config : Config
  response : Option Response

/-- How a promise returned by the wrapper settles. -/
inductive Outcome where
  | resolved (response : Response)
  | rejected (error : AxiosError)

/-- A call that reaches the network. -/
inductive NetCall where
  | request (config : Config)
  | refresh (url : String) (refresh : String)

/-- Whether a logged call is a call of the refresh endpoint. -/
def NetCall.isRefresh : NetCall → Bool
  | .refresh _ _ => true
  | .request _ => false

/-- Whether a logged call is a dispatch of a request through the wrapper. -/
def NetCall.isRequest : NetCall → Bool
  | .request _ => true
  | .refresh _ _ => false

/-- The browser and the network as seen by the session layer. -/
structure World where
  storage : Dict
  location : String
  log : List NetCall

/-- The environment of the module: the configured base URL and the remote API,
which answers a call knowing the calls made before it (`none`: no response). -/
structure Env where
  API_BASE_URL : String
  backend : List NetCall → NetCall → Option Response

/-- The default `validateStatus` of axios: a response resolves exactly for 2xx. -/
def validateStatus (status : Nat) : Bool :=
  200 ≤ status && status < 300

/-- The adapter settles the promise of a request from the reply of the network. -/
def settle (config : Config) (reply : Option Response) : Outcome :=
  match reply with
  | some r => if validateStatus r.status then .resolved r else .rejected ⟨config, some r⟩
  | none => .rejected ⟨config, none⟩

/-! ## `services/api.js` -/

/-- The instance defaults of `axios.create` (api.js lines 7-13) merged under the
configuration of a call: fields given by the call win, custom fields such as
`_retry` are kept. -/
def mergeConfig (env : Env) (config : Config) : Config :=
  { config with
    baseURL := some (config.baseURL.getD env.API_BASE_URL)
    timeout := some (config.timeout.getD 10000)
    headers := some (match config.headers with
      | none => [("Content-Type", "application/json")]
      | some h =>
        if (Dict.getItem h "Content-Type").isSome then h
        else h ++ [("Content-Type", "application/json")]) }

/-- The request interceptor (api.js lines 16-23). -/
def requestInterceptor (storage : Dict) (config : Config) : Config :=
  let token := storage.getItem "access_token"
  match config.headers with
  | some headers =>
    if truthy token then
      { config with headers := some (headers.setItem "Authorization" ("Bearer " ++ token.getD "")) }
    else config
  | none => config

/-- The configuration that leaves the wrapper for a call made in world `w`. -/
def outgoing (env : Env) (w : World) (config : Config) : Config :=
  requestInterceptor w.storage (mergeConfig env config)

/-- The `catch` block of the response interceptor (api.js lines 54-60). -/
def refreshFailed (w : World) : World :=
  { w with
    storage := ((w.storage.removeItem "access_token").removeItem "refresh_token").removeItem "user"
    location := "/login" }

/-- The rejection handler of the response interceptor (api.js lines 34-64);
`api` is the wrapper itself, called for the retry. -/
def responseError (env : Env) (api : World → Config → Option (World × Outcome))
    (w : World) (error : AxiosError) : Option (World × Outcome) :=
  if (error.response.map (·.status)) = some 401 ∧ error.config._retry = false then
    let originalRequest := { error.config with _retry := true }
    let error := { error with config := originalRequest }
    let refreshToken := w.storage.getItem "refresh_token"
    if truthy refreshToken then
      let call := NetCall.refresh (env.API_BASE_URL ++ "/token/refresh/") (refreshToken.getD "")
      let w1 := { w with log := w.log ++ [call] }
      match env.backend w.log call with
      | some response =>
        if validateStatus response.status then
          match response.data.getProp "access" with
          | some access =>
            let w2 := { w1 with storage := w1.storage.setItem "access_token" access.toJsString }
            match originalRequest.headers with
            | some headers =>
              api w2 { originalRequest with
                headers := some (headers.setItem "Authorization" ("Bearer " ++ access.toJsString)) }
            | none => some (refreshFailed w2, .rejected error)
          | none => some (refreshFailed w1, .rejected error)
        else some (refreshFailed w1, .rejected error)
      | none => some (refreshFailed w1, .rejected error)
    else some (w, .rejected error)
  else some (w, .rejected error)

/-- The wrapper `api(config)`: defaults, request interceptor, network, response
interceptor. The fuel bounds the nesting of retries; `none` means it ran out. -/
def api (env : Env) : Nat → World → Config → Option (World × Outcome)
  | 0, _, _ => none
  | fuel + 1, w, config =>
    let sent := outgoing env w config
    let w1 := { w with log := w.log ++ [NetCall.request sent] }
    match settle sent (env.backend w.log (NetCall.request sent)) with
    | .resolved response => some (w1, .resolved response)
    | .rejected error => responseError env (api env fuel) w1 error

/-! ## `context/AuthContext.jsx` -/

/-- The React state of `AuthProvider`. -/
structure AuthState where
  user : JVal
  isLoading : Bool

/-- The state at mount: `useState(null)`, `useState(true)`. -/
def AuthState.initial : AuthState := ⟨JVal.null, true⟩

/-- The `catch` block of the initialization effect (AuthContext.jsx lines 31-33). -/
def purgeSession (storage : Dict) : Dict :=
  ((storage.removeItem "user").removeItem "access_token").removeItem "refresh_token"

/-- The initialization effect of `AuthProvider` (AuthContext.jsx lines 20-37).
`parse` is `JSON.parse` of the host, `none` standing for a thrown `SyntaxError`. -/
def mountEffect (parse : String → Option JVal) (storage : Dict) (s : AuthState) :
    Dict × AuthState :=
  let token := storage.getItem "access_token"
  let userData := storage.getItem "user"
  if truthy token && truthy userData then
    match parse (userData.getD "") with
    | some parsedUser => (storage, { user := parsedUser, isLoading := false })
    | none => (purgeSession storage, { s with isLoading := false })
  else (storage, { s with isLoading := false })

/-- JavaScript `ToBoolean`, as applied by `!!v`, `v ? a : b` and `if (v)`. -/
def JVal.toBoolean : JVal → Bool
  | .undefined => false
  | .null => false
  | .bool b => b
  | .num n => n != 0
  | .str s => s != ""
  | .obj _ => true

/-- A value thrown inside an `async` function of the session layer: the error of a
rejected request, or the `TypeError` of destructuring `null` or `undefined`. -/
inductive Thrown where
  | axios (error : AxiosError)
  | typeError

/-- The configuration built by `api.post(url, body)`; `stringify` is
`JSON.stringify` of the host (`none`: its result is `undefined`), which axios
applies to the body. -/
def post (stringify : JVal → Option String) (url : String) (body : JVal) : Config :=
  { url := url, method := "post", baseURL := none, timeout := none,
    headers := none, data := stringify body, _retry := false }

/-- The shape shared by the methods of `authAPI` (api.js lines 69-77, 93-106):
`const response = await api.post(url, data); return response.data;`. -/
def postForData (env : Env) (stringify : JVal → Option String) (fuel : Nat) (w : World)
    (url : String) (body : JVal) : Option (World × Except Thrown JVal) :=
  match api env fuel w (post stringify url body) with
  | none => none
  | some (w', .resolved response) => some (w', .ok response.data)
  | some (w', .rejected error) => some (w', .error (.axios error))

/-- The three `removeItem` calls that end `authAPI.logout` (api.js lines 88-90). -/
def removeSession (storage : Dict) : Dict :=
  ((storage.removeItem "access_token").removeItem "refresh_token").removeItem "user"

namespace authAPI

/-- The method `authAPI.login` (api.js lines 69-72). -/
def login (env : Env) (stringify : JVal → Option String) (fuel : Nat) (w : World)
    (credentials : JVal) : Option (World × Except Thrown JVal) :=
  postForData env stringify fuel w "/token/" credentials

/-- The method `authAPI.register` (api.js lines 74-77). -/
def register (env : Env) (stringify : JVal → Option String) (fuel : Nat) (w : World)
    (userData : JVal) : Option (World × Except Thrown JVal) :=
  postForData env stringify fuel w "/users/register/" userData

/-- The method `authAPI.logout` (api.js lines 79-91): the error of the server call
is caught and logged. -/
def logout (env : Env) (stringify : JVal → Option String) (fuel : Nat) (w : World) :
    Option (World × Except Thrown Unit) :=
  let refreshToken := w.storage.getItem "refresh_token"
  if truthy refreshToken then
    match api env fuel w
        (post stringify "/users/logout/"
          (.obj [("refresh_token", .str (refreshToken.getD ""))])) with
    | none => none
    | some (w', _) => some ({ w' with storage := removeSession w'.storage }, .ok ())
  else some ({ w with storage := removeSession w.storage }, .ok ())

/-- The method `authAPI.verifyCode` (api.js lines 93-96). -/
def verifyCode (env : Env) (stringify : JVal → Option String) (fuel : Nat) (w : World)
    (data : JVal) : Option (World × Except Thrown JVal) :=
  postForData env stringify fuel w "/users/verify-code/" data

/-- The method `authAPI.sendVerificationCode` (api.js lines 98-101). -/
def sendVerificationCode (env : Env) (stringify : JVal → Option String) (fuel : Nat)
    (w : World) (data : JVal) : Option (World × Except Thrown JVal) :=
  postForData env stringify fuel w "/users/send-verification-code/" data

/-- The method `authAPI.changePassword` (api.js lines 103-106). -/
def changePassword (env : Env) (stringify : JVal → Option String) (fuel : Nat)
    (w : World) (data : JVal) : Option (World × Except Thrown JVal) :=
  postForData env stringify fuel w "/users/change-password/" data

end authAPI

/-- The shape shared by `register`, `verifyCode`, `sendVerificationCode` and
`changePassword` of the context: `try { await call } catch (error) { throw error }`;
the React state is not touched. -/
def awaitOrThrow (s : AuthState) (call : Option (World × Except Thrown JVal)) :
    Option ((World × AuthState) × Except Thrown Unit) :=
  match call with
  | none => none
  | some (w', .ok _) => some ((w', s), .ok ())
  | some (w', .error e) => some ((w', s), .error e)

namespace AuthProvider

/-- The derived flag `const isAuthenticated = !!user` (AuthContext.jsx line 18). -/
def isAuthenticated (s : AuthState) : Bool :=
  s.user.toBoolean

/-- The operation `login` of the context (AuthContext.jsx lines 39-53). -/
def login (env : Env) (stringify : JVal → Option String) (fuel : Nat) (w : World)
    (s : AuthState) (email password : String) :
    Option ((World × AuthState) × Except Thrown Unit) :=
  match authAPI.login env stringify fuel w
      (.obj [("email", .str email), ("password", .str password)]) with
  | none => none
  | some (w', .error e) => some ((w', s), .error e)
  | some (w', .ok response) =>
    match response.getProp "access_token", response.getProp "refresh_token",
        response.getProp "user" with
    | some access_token, some refresh_token, some userData =>
      let storage := w'.storage.setItem "access_token" access_token.toJsString
      let storage := storage.setItem "refresh_token" refresh_token.toJsString
      let storage := storage.setItem "user" ((stringify userData).getD "undefined")
      some (({ w' with storage := storage }, { s with user := userData }), .ok ())
    | _, _, _ => some ((w', s), .error .typeError)

/-- The operation `register` of the context (AuthContext.jsx lines 55-62). -/
def register (env : Env) (stringify : JVal → Option String) (fuel : Nat) (w : World)
    (s : AuthState) (userData : JVal) : Option ((World × AuthState) × Except Thrown Unit) :=
  awaitOrThrow s (authAPI.register env stringify fuel w userData)

/-- The operation `logout` of the context (AuthContext.jsx lines 64-72): an error
is caught and logged, and `finally` resets the user. -/
def logout (env : Env) (stringify : JVal → Option String) (fuel : Nat) (w : World)
    (s : AuthState) : Option ((World × AuthState) × Except Thrown Unit) :=
  match authAPI.logout env stringify fuel w with
  | none => none
  | some (w', _) => some ((w', { s with user := .null }), .ok ())

/-- The operation `verifyCode` of the context (AuthContext.jsx lines 74-81). -/
def verifyCode (env : Env) (stringify : JVal → Option String) (fuel : Nat) (w : World)
    (s : AuthState) (data : JVal) : Option ((World × AuthState) × Except Thrown Unit) :=
  awaitOrThrow s (authAPI.verifyCode env stringify fuel w data)

/-- The operation `sendVerificationCode` of the context (AuthContext.jsx lines 83-90). -/
def sendVerificationCode (env : Env) (stringify : JVal → Option String) (fuel : Nat)
    (w : World) (s : AuthState) (data : JVal) :
    Option ((World × AuthState) × Except Thrown Unit) :=
  awaitOrThrow s (authAPI.sendVerificationCode env stringify fuel w data)

/-- The operation `changePassword` of the context (AuthContext.jsx lines 92-99). -/
def changePassword (env : Env) (stringify : JVal → Option String) (fuel : Nat)
    (w : World) (s : AuthState) (oldPassword newPassword : JVal) :
    Option ((World × AuthState) × Except Thrown Unit) :=
  awaitOrThrow s (authAPI.changePassword env stringify fuel w
    (.obj [("old_password", oldPassword), ("new_password", newPassword)]))

end AuthProvider

/-- The data fields of the object passed to `AuthContext.Provider`
(AuthContext.jsx lines 101-111); its other properties are the six operations. -/
structure ContextValue where
  user : JVal
  isAuthenticated : Bool
  isLoading : Bool

/-- The context value built by `AuthProvider` from its state. -/
def AuthProvider.value (s : AuthState) : ContextValue :=
  { user := s.user, isAuthenticated := AuthProvider.isAuthenticated s,
    isLoading := s.isLoading }

/-- Reading a property of the context value, as the destructuring in a consumer
does: an operation is a function, shown here as an object, and a name the value
does not have gives `undefined`. -/
def ContextValue.prop (c : ContextValue) (name : String) : JVal :=
  if name = "user" then c.user
  else if name = "isAuthenticated" then .bool c.isAuthenticated
  else if name = "isLoading" then .bool c.isLoading
  else if name = "login" ∨ name = "register" ∨ name = "logout" ∨ name = "verifyCode" ∨
      name = "sendVerificationCode" ∨ name = "changePassword" then .obj []
  else .undefined

/-- The hook `useAuth` (AuthContext.jsx lines 6-12); `none` is the `undefined`
that `useContext` returns without a provider, and the error carries the message. -/
def useAuth (context : Option ContextValue) : Except String ContextValue :=
  match context with
  | none => .error "useAuth must be used within an AuthProvider"
  | some value => .ok value

/-! ## `router/AppRouter.jsx` -/

/-- What a route guard renders. -/
inductive Element where
  | spinner
  | children
  | navigate (path : String)
  deriving DecidableEq

/-- The component `ProtectedRoute` (AppRouter.jsx lines 13-25). -/
def ProtectedRoute (context : Option ContextValue) : Except String Element :=
  match useAuth context with
  | .error e => .error e
  | .ok value =>
    let user := value.prop "user"
    let loading := value.prop "loading"
    if loading.toBoolean then .ok .spinner
    else if user.toBoolean then .ok .children
    else .ok (.navigate "/login")

/-- The component `PublicRoute` (AppRouter.jsx lines 28-40). -/
def PublicRoute (context : Option ContextValue) : Except String Element :=
  match useAuth context with
  | .error e => .error e
  | .ok value =>
    let user := value.prop "user"
    let loading := value.prop "loading"
    if loading.toBoolean then .ok .spinner
    else if user.toBoolean then .ok (.navigate "/dashboard")
    else .ok .children

/-! ## The lock-step of the three slots -/

/-- The slots `access_token`, `refresh_token` and `user` are all present or all
absent. -/
def lockStep (d : Dict) : Bool :=
  ((d.getItem "access_token").isSome && (d.getItem "refresh_token").isSome &&
      (d.getItem "user").isSome) ||
    ((d.getItem "access_token").isNone && (d.getItem "refresh_token").isNone &&
      (d.getItem "user").isNone)

/-! ## Strings and regular expressions of the host -/

/-- JavaScript white space and line terminators: the class `\s` of a regular
expression, which is also what `String.prototype.trim` strips. -/
def isWhiteSpace (c : Char) : Bool :=
  c.toNat = 9 || c.toNat = 10 || c.toNat = 11 || c.toNat = 12 || c.toNat = 13 ||
  c.toNat = 32 || c.toNat = 160 || c.toNat = 5760 ||
  (8192 ≤ c.toNat && c.toNat ≤ 8202) || c.toNat = 8232 || c.toNat = 8233 ||
  c.toNat = 8239 || c.toNat = 8287 || c.toNat = 12288 || c.toNat = 65279

/-- The class `\S` of a regular expression. -/
def isNonWhiteSpace (c : Char) : Bool :=
  !isWhiteSpace c

/-- The property `length` of a JavaScript string: its number of UTF-16 code units
(two for a character outside the basic plane). -/
def jsLength (s : String) : Nat :=
  (s.toList.map fun c => if c.toNat < 65536 then 1 else 2).sum

/-- The method `trim` of a JavaScript string. -/
def jsTrim (s : String) : String :=
  String.mk ((s.toList.dropWhile isWhiteSpace).reverse.dropWhile isWhiteSpace).reverse

/-- The method `includes` of a JavaScript string: `needle` occurs in `haystack`. -/
def includes (haystack needle : String) : Bool :=
  haystack.toList.tails.any fun rest => needle.toList.isPrefixOf rest

/-- A term of a regular expression without alternatives: one character of a
class, or one or more characters of a class (`+`). -/
inductive Term where
  | one (cls : Char → Bool)
  | many1 (cls : Char → Bool)

/-- Whether a prefix of the input matches the sequence of terms; a `+` term may
stop after any character it accepts. -/
def matchPrefix : List Term → List Char → Bool
  | [], _ => true
  | Term.one _ :: _, [] => false
  | Term.one cls :: rest, c :: cs => cls c && matchPrefix rest cs
  | Term.many1 _ :: _, [] => false
  | Term.many1 cls :: rest, c :: cs =>
    cls c && (matchPrefix rest cs || matchPrefix (Term.many1 cls :: rest) cs)

/-- What it means for a sequence of terms to match a whole list of characters:
the list splits into one piece for each term. -/
def Matches : List Term → List Char → Prop
  | [], m => m = []
  | Term.one cls :: rest, m => ∃ c m', m = c :: m' ∧ cls c = true ∧ Matches rest m'
  | Term.many1 cls :: rest, m =>
    ∃ a m', m = a ++ m' ∧ a ≠ [] ∧ (∀ x ∈ a, cls x = true) ∧ Matches rest m'

/-- The method `test` of a regular expression without anchors: the pattern matches
somewhere in the string. -/
def regexTest (pattern : List Term) (s : String) : Bool :=
  s.toList.tails.any fun rest => matchPrefix pattern rest

/-- The regular expression `/\S+@\S+\.\S+/` (Login.jsx line 27, Register.jsx
line 40). -/
def emailPattern : List Term :=
  [Term.many1 isNonWhiteSpace, Term.one (fun c => c = '@'), Term.many1 isNonWhiteSpace,
    Term.one (fun c => c = '.'), Term.many1 isNonWhiteSpace]

/-- The shape the email must contain, in words: one or more non-white-space
characters, `@`, one or more non-white-space characters, `.`, one or more
non-white-space characters. -/
def EmailShape (email : String) : Prop :=
  ∃ before a b c after : List Char,
    email.toList = before ++ (a ++ '@' :: (b ++ '.' :: c)) ++ after ∧
    a ≠ [] ∧ b ≠ [] ∧ c ≠ [] ∧
    (∀ x ∈ a, isNonWhiteSpace x = true) ∧ (∀ x ∈ b, isNonWhiteSpace x = true) ∧
    (∀ x ∈ c, isNonWhiteSpace x = true)

/-! ## `pages/Auth/Login.jsx` and `pages/Auth/Register.jsx` -/

/-- The state `formData` of the login page. -/
structure LoginForm where
  email : String
  password : String

/-- The state `formData` of the registration page. -/
structure RegisterForm where
  name : String
  surname : String
  email : String
  phone : String
  password : String
  confirmPassword : String

/-- The email check shared by both forms, applied to `newErrors`. -/
def checkEmail (newErrors : Dict) (email : String) : Dict :=
  if email = "" then newErrors.setItem "email" "Email is required"
  else if !regexTest emailPattern email then newErrors.setItem "email" "Invalid email format"
  else newErrors

/-- The password check shared by both forms, applied to `newErrors`. -/
def checkPassword (newErrors : Dict) (password : String) : Dict :=
  if password = "" then newErrors.setItem "password" "Password is required"
  else if jsLength password < 6 then
    newErrors.setItem "password" "Password must be at least 6 characters"
  else newErrors

/-- The function `validateForm` of the login page (Login.jsx lines 22-39): the
errors handed to `setErrors` and the returned flag. -/
def Login.validateForm (formData : LoginForm) : Dict × Bool :=
  let newErrors : Dict := []
  let newErrors := checkEmail newErrors formData.email
  let newErrors := checkPassword newErrors formData.password
  (newErrors, newErrors.length == 0)

/-- The function `validateForm` of the registration page (Register.jsx lines
27-62): the errors handed to `setErrors` and the returned flag. -/
def Register.validateForm (formData : RegisterForm) : Dict × Bool :=
  let newErrors : Dict := []
  let newErrors :=
    if jsTrim formData.name = "" then newErrors.setItem "name" "First name is required"
    else newErrors
  let newErrors :=
    if jsTrim formData.surname = "" then newErrors.setItem "surname" "Last name is required"
    else newErrors
  let newErrors := checkEmail newErrors formData.email
  let newErrors :=
    if formData.phone = "" then newErrors.setItem "phone" "Phone number is required"
    else newErrors
  let newErrors := checkPassword newErrors formData.password
  let newErrors :=
    if formData.confirmPassword = "" then
      newErrors.setItem "confirmPassword" "Please confirm your password"
    else if formData.password ≠ formData.confirmPassword then
      newErrors.setItem "confirmPassword" "Passwords do not match"
    else newErrors
  (newErrors, newErrors.length == 0)

/-! ## `pages/OrdersPage.jsx` -/

/-- An order of the list, with the fields the filter reads (`none`: the field is
missing, `null` or `undefined`). -/
structure Order where
  id : Nat
  order_number : Option String
  description : Option String
  destination : Option String
  status : Option String
  deriving DecidableEq

/-- The expression `field?.toLowerCase().includes(searchTerm.toLowerCase())`:
`none` is the `undefined` of the optional chain. -/
def fieldIncludes (toLowerCase : String → String) (field : Option String)
    (searchTerm : String) : Option Bool :=
  field.map fun v => includes (toLowerCase v) (toLowerCase searchTerm)

/-- JavaScript `a || b` on values that are `undefined` or booleans. -/
def jsOr (a b : Option Bool) : Option Bool :=
  if a = some true then a else b

/-- JavaScript `a && b` on values that are `undefined` or booleans. -/
def jsAnd (a b : Option Bool) : Option Bool :=
  if a = some true then b else a

/-- The callback of `orders.filter` (OrdersPage.jsx lines 76-82); `toLowerCase` is
the method of the host. -/
def keepsOrder (toLowerCase : String → String) (searchTerm statusFilter : String)
    (order : Order) : Bool :=
  let matchesSearch :=
    jsOr (jsOr (fieldIncludes toLowerCase order.order_number searchTerm)
        (fieldIncludes toLowerCase order.description searchTerm))
      (fieldIncludes toLowerCase order.destination searchTerm)
  let matchesStatus : Bool := statusFilter = "all" || order.status = some statusFilter
  jsAnd matchesSearch (some matchesStatus) = some true

/-- The list `filteredOrders` (OrdersPage.jsx lines 75-83). -/
def filteredOrders (toLowerCase : String → String) (orders : List Order)
    (searchTerm statusFilter : String) : List Order :=
  orders.filter (keepsOrder toLowerCase searchTerm statusFilter)

/-! ## Sample inputs -/

/-- A request for the order list, as built by `api.get('/orders/')`. -/
def sampleConfig : Config :=
  { url := "/orders/", method := "get", baseURL := none, timeout := none,
    headers := none, data := none, _retry := false }

/-- A backend that answers 401 to every request and accepts every refresh. -/
def rejectingEnv : Env :=
  { API_BASE_URL := "http://localhost:8000/api"
    backend := fun _ call =>
      match call with
      | .request _ => some ⟨401, .null⟩
      | .refresh _ _ => some ⟨200, .obj [("access", .str "a2")]⟩ }

/-- A backend that answers 401 to every request and 400 to every refresh. -/
def expiredEnv : Env :=
  { API_BASE_URL := "http://localhost:8000/api"
    backend := fun _ call =>
      match call with
      | .request _ => some ⟨401, .null⟩
      | .refresh _ _ => some ⟨400, .null⟩ }

/-- A backend that answers 500 to every call. -/
def brokenEnv : Env :=
  { API_BASE_URL := "http://localhost:8000/api"
    backend := fun _ _ => some ⟨500, .null⟩ }

/-- A logged-in browser on the dashboard. -/
def sampleWorld : World :=
  { storage := [("access_token", "a1"), ("refresh_token", "r1"), ("user", "\x7b\x7d")]
    location := "/dashboard", log := [] }

/-- A browser that holds an access token and a profile but no refresh token. -/
def noRefreshWorld : World :=
  { storage := [("access_token", "a1"), ("user", "\x7b\x7d")]
    location := "/dashboard", log := [] }

/-- A stand-in for `JSON.parse` on the texts used in the examples: `{}` and `null`
are JSON, `{bad` is not. The theorems hold for every parse function. -/
def sampleParse (text : String) : Option JVal :=
  if text = "\x7b\x7d" then some (.obj [])
  else if text = "null" then some .null
  else none

/-- A stand-in for `JSON.stringify` on the values used in the examples: exact on
`undefined`, `null`, booleans, integers, strings with nothing to escape, and
objects whose fields hold such values or the empty object. The theorems hold for
every stringify function. -/
def sampleStringify : JVal → Option String
  | .undefined => none
  | .null => some "null"
  | .bool b => some (if b then "true" else "false")
  | .num n => some (toString n)
  | .str s => some ("\"" ++ s ++ "\"")
  | .obj fields =>
    some ("\x7b" ++ ",".intercalate (fields.map fun kv =>
      "\"" ++ kv.1 ++ "\":" ++
        (match kv.2 with
        | .null => "null"
        | .bool b => if b then "true" else "false"
        | .num n => toString n
        | .str s => "\"" ++ s ++ "\""
        | _ => "\x7b\x7d")) ++ "\x7d")

/-- A backend that accepts every call: a request is answered with a session
triple, a refresh with a new access token. -/
def acceptingEnv : Env :=
  { API_BASE_URL := "http://localhost:8000/api"
    backend := fun _ call =>
      match call with
      | .request _ => some ⟨200, .obj [("access_token", .str "a9"),
          ("refresh_token", .str "r9"), ("user", .obj [])]⟩
      | .refresh _ _ => some ⟨200, .obj [("access", .str "a2")]⟩ }

/-- A browser with nothing stored, on the login page. -/
def loggedOutWorld : World :=
  { storage := [], location := "/login", log := [] }

/-- A stand-in for `toLowerCase` of the host, exact on ASCII strings. The theorems
hold for every such function. -/
def asciiLower (s : String) : String :=
  String.mk (s.toList.map Char.toLower)

/-- Three orders: one complete, one with no description and no destination, one
with no text at all. -/
def sampleOrders : List Order :=
  [{ id := 1, order_number := some "WC-100", description := some "Books",
     destination := some "Tashkent", status := some "delivered" },
   { id := 2, order_number := some "WC-200", description := none,
     destination := none, status := some "processing" },
   { id := 3, order_number := none, description := none,
     destination := none, status := some "delivered" }]

/-! ## Lemmas on stores -/

namespace Dict

theorem getItem_removeItem_self (d : Dict) (k : String) :
    (d.removeItem k).getItem k = none := by
  induction d with
  | nil => rfl
  | cons p rest ih =>
    obtain ⟨k', v⟩ := p
    by_cases h : k' = k
    · simp [removeItem, h, ih]
    · simp [removeItem, getItem, h, ih]

theorem getItem_removeItem_ne (d : Dict) {k k' : String} (h : k' ≠ k) :
    (d.removeItem k).getItem k' = d.getItem k' := by
  induction d with
  | nil => rfl
  | cons p rest ih =>
    obtain ⟨k₀, v⟩ := p
    by_cases h₀ : k₀ = k
    · have h₁ : ¬ k₀ = k' := fun e => h (e ▸ h₀)
      simp only [removeItem, getItem, if_pos h₀, if_neg h₁, ih]
    · by_cases h₁ : k₀ = k'
      · simp only [removeItem, getItem, if_neg h₀, if_pos h₁]
      · simp only [removeItem, getItem, if_neg h₀, if_neg h₁, ih]

theorem getItem_setItem_self (d : Dict) (k v : String) :
    (d.setItem k v).getItem k = some v := by
  simp [setItem, getItem]

theorem getItem_setItem_ne (d : Dict) {k k' : String} (v : String) (h : k' ≠ k) :
    (d.setItem k v).getItem k' = d.getItem k' := by
  have h' : ¬ k = k' := fun e => h e.symm
  simp [setItem, getItem, h', getItem_removeItem_ne d h]

theorem getItem_append_ne (d : Dict) {k k' : String} (v : String) (h : k' ≠ k) :
    getItem (d ++ [(k, v)]) k' = d.getItem k' := by
  have h' : ¬ k = k' := fun e => h e.symm
  induction d with
  | nil => simp only [List.nil_append, getItem, if_neg h']
  | cons p rest ih =>
    obtain ⟨k₀, v₀⟩ := p
    by_cases h₀ : k₀ = k'
    · simp only [List.cons_append, getItem, if_pos h₀]
    · have ih' : getItem (rest ++ [(k, v)]) k' = getItem rest k' := ih
      show getItem ((k₀, v₀) :: (rest ++ [(k, v)])) k' = getItem ((k₀, v₀) :: rest) k'
      simp only [getItem, if_neg h₀, ih']

end Dict

/-! ## Lemmas on the request phase -/

theorem truthy_some {t : String} (h : t ≠ "") : truthy (some t) = true := by
  simp [truthy, h]

theorem truthy_eq_true {o : Option String} (h : truthy o = true) :
    ∃ t, o = some t ∧ t ≠ "" := by
  cases o with
  | none => simp [truthy] at h
  | some t => exact ⟨t, rfl, by simpa [truthy] using h⟩

theorem mergeConfig_headers (env : Env) (config : Config) :
    ∃ h, (mergeConfig env config).headers = some h ∧
      h.getItem "Authorization" = (config.headers.getD []).getItem "Authorization" := by
  cases hh : config.headers with
  | none =>
    exact ⟨[("Content-Type", "application/json")], by simp only [mergeConfig, hh], by decide⟩
  | some h₀ =>
    by_cases hc : (Dict.getItem h₀ "Content-Type").isSome = true
    · exact ⟨h₀, by simp only [mergeConfig, hh, if_pos hc], rfl⟩
    · exact ⟨h₀ ++ [("Content-Type", "application/json")],
        by simp only [mergeConfig, hh, if_neg hc],
        by simpa using Dict.getItem_append_ne h₀ "application/json" (by decide)⟩

theorem outgoing_retry (env : Env) (w : World) (config : Config) :
    (outgoing env w config)._retry = config._retry := by
  unfold outgoing requestInterceptor
  obtain ⟨h, hh, -⟩ := mergeConfig_headers env config
  simp only [hh]
  split <;> rfl

theorem outgoing_same_request (env : Env) (w : World) (config : Config) :
    (outgoing env w config).url = config.url ∧
    (outgoing env w config).method = config.method ∧
    (outgoing env w config).data = config.data := by
  unfold outgoing requestInterceptor
  obtain ⟨h, hh, -⟩ := mergeConfig_headers env config
  simp only [hh]
  split <;> exact ⟨rfl, rfl, rfl⟩

theorem outgoing_headers (env : Env) (w : World) (config : Config) :
    ∃ h, (outgoing env w config).headers = some h := by
  unfold outgoing requestInterceptor
  obtain ⟨h, hh, -⟩ := mergeConfig_headers env config
  simp only [hh]
  split
  · exact ⟨_, rfl⟩
  · exact ⟨h, hh⟩

theorem outgoing_bearer (env : Env) (w : World) (config : Config) {t : String}
    (ht : w.storage.getItem "access_token" = some t) (hne : t ≠ "") :
    ∃ h, (outgoing env w config).headers = some h ∧
      h.getItem "Authorization" = some ("Bearer " ++ t) := by
  unfold outgoing requestInterceptor
  obtain ⟨h, hh, -⟩ := mergeConfig_headers env config
  simp only [hh, ht, truthy_some hne, if_true, Option.getD_some]
  exact ⟨_, rfl, Dict.getItem_setItem_self _ _ _⟩

theorem outgoing_no_token (env : Env) (w : World) (config : Config)
    (ht : truthy (w.storage.getItem "access_token") = false) :
    outgoing env w config = mergeConfig env config := by
  unfold outgoing requestInterceptor
  obtain ⟨h, hh, -⟩ := mergeConfig_headers env config
  simp only [hh, ht]
  rfl

/-! ## Lemmas on the response phase -/

theorem settle_rejected {config : Config} {reply : Option Response} {e : AxiosError}
    (h : settle config reply = .rejected e) : e = ⟨config, reply⟩ := by
  unfold settle at h
  cases reply with
  | none => simp only [Outcome.rejected.injEq] at h; exact h.symm
  | some r =>
    by_cases hv : validateStatus r.status = true
    · simp [hv] at h
    · simp only [hv, Bool.false_eq_true, if_false, Outcome.rejected.injEq] at h; exact h.symm

theorem settle_of_invalid (config : Config) {r : Response}
    (h : validateStatus r.status = false) :
    settle config (some r) = .rejected ⟨config, some r⟩ := by
  simp [settle, h]

theorem validateStatus_401 : validateStatus 401 = false := by decide

theorem responseError_passthrough (env : Env)
    (api' : World → Config → Option (World × Outcome)) (w : World) (error : AxiosError)
    (h : ¬ (error.response.map (·.status) = some 401 ∧ error.config._retry = false)) :
    responseError env api' w error = some (w, .rejected error) := by
  unfold responseError
  rw [if_neg h]

theorem api_succ (env : Env) (fuel : Nat) (w : World) (config : Config) :
    api env (fuel + 1) w config =
      match settle (outgoing env w config)
          (env.backend w.log (NetCall.request (outgoing env w config))) with
      | .resolved response =>
        some ({ w with log := w.log ++ [NetCall.request (outgoing env w config)] },
          .resolved response)
      | .rejected error =>
        responseError env (api env fuel)
          { w with log := w.log ++ [NetCall.request (outgoing env w config)] } error := by
  rfl

/-- A request that already carries the retried flag is dispatched once and its
result is returned as it is. -/
theorem api_retried (env : Env) (fuel : Nat) (w : World) (config : Config)
    (h : config._retry = true) :
    api env (fuel + 1) w config =
      some ({ w with log := w.log ++ [NetCall.request (outgoing env w config)] },
        settle (outgoing env w config)
          (env.backend w.log (NetCall.request (outgoing env w config)))) := by
  rw [api_succ]
  cases hs : settle (outgoing env w config)
      (env.backend w.log (NetCall.request (outgoing env w config))) with
  | resolved r => rfl
  | rejected e =>
    have he := settle_rejected hs
    simp only
    apply responseError_passthrough
    rintro ⟨-, h2⟩
    rw [he] at h2
    simp only [outgoing_retry, h] at h2
    exact Bool.noConfusion h2

/-- The refresh call issued by the response interceptor for the refresh token `r`. -/
theorem responseError_refresh_ok (env : Env)
    (api' : World → Config → Option (World × Outcome)) (w : World) (error : AxiosError)
    {resp rr : Response} {r : String} {access : JVal} {h : Dict}
    (hresp : error.response = some resp) (h401 : resp.status = 401)
    (hretry : error.config._retry = false)
    (hr : w.storage.getItem "refresh_token" = some r) (hne : r ≠ "")
    (hreply : env.backend w.log (NetCall.refresh (env.API_BASE_URL ++ "/token/refresh/") r)
      = some rr)
    (hvalid : validateStatus rr.status = true)
    (haccess : rr.data.getProp "access" = some access)
    (hh : error.config.headers = some h) :
    responseError env api' w error =
      api'
        { storage := w.storage.setItem "access_token" access.toJsString
          location := w.location
          log := w.log ++ [NetCall.refresh (env.API_BASE_URL ++ "/token/refresh/") r] }
        { error.config with
          _retry := true
          headers := some (h.setItem "Authorization" ("Bearer " ++ access.toJsString)) } := by
  unfold responseError
  have hc : error.response.map (·.status) = some 401 ∧ error.config._retry = false := by
    rw [hresp]; exact ⟨by simp [h401], hretry⟩
  rw [if_pos hc]
  simp only [hr, truthy_some hne, if_true, Option.getD_some, hreply, hvalid, haccess, hh]

theorem responseError_refresh_failed (env : Env)
    (api' : World → Config → Option (World × Outcome)) (w : World) (error : AxiosError)
    {resp : Response} {r : String}
    (hresp : error.response = some resp) (h401 : resp.status = 401)
    (hretry : error.config._retry = false)
    (hr : w.storage.getItem "refresh_token" = some r) (hne : r ≠ "")
    (hfail : ∀ rr, env.backend w.log
        (NetCall.refresh (env.API_BASE_URL ++ "/token/refresh/") r) = some rr →
      validateStatus rr.status = false) :
    responseError env api' w error =
      some (refreshFailed
          { w with log := w.log ++ [NetCall.refresh (env.API_BASE_URL ++ "/token/refresh/") r] },
        .rejected { error with config := { error.config with _retry := true } }) := by
  unfold responseError
  have hc : error.response.map (·.status) = some 401 ∧ error.config._retry = false := by
    rw [hresp]; exact ⟨by simp [h401], hretry⟩
  rw [if_pos hc]
  simp only [hr, truthy_some hne, if_true, Option.getD_some]
  cases hb : env.backend w.log (NetCall.refresh (env.API_BASE_URL ++ "/token/refresh/") r) with
  | none => rfl
  | some rr => simp only [hfail rr hb, Bool.false_eq_true, if_false]

theorem responseError_no_refresh_token (env : Env)
    (api' : World → Config → Option (World × Outcome)) (w : World) (error : AxiosError)
    {resp : Response}
    (hresp : error.response = some resp) (h401 : resp.status = 401)
    (hretry : error.config._retry = false)
    (hr : truthy (w.storage.getItem "refresh_token") = false) :
    responseError env api' w error =
      some (w, .rejected { error with config := { error.config with _retry := true } }) := by
  unfold responseError
  have hc : error.response.map (·.status) = some 401 ∧ error.config._retry = false := by
    rw [hresp]; exact ⟨by simp [h401], hretry⟩
  rw [if_pos hc]
  simp only [hr, Bool.false_eq_true, if_false]

/-- Every run of the rejection handler whose retry is the wrapper itself ends, and
adds to the log nothing, one refresh call, or one refresh call followed by one
request that carries the retried flag. -/
theorem responseError_trace (env : Env) (fuel : Nat) (w : World) (error : AxiosError) :
    ∃ w' out, responseError env (api env (fuel + 1)) w error = some (w', out) ∧
      (w'.log = w.log ∨ (∃ u r, w'.log = w.log ++ [NetCall.refresh u r]) ∨
        ∃ u r c, w'.log = w.log ++ [NetCall.refresh u r, NetCall.request c] ∧
          c._retry = true) := by
  unfold responseError
  split
  · simp only
    split
    · split
      · split
        · split
          · split
            · rw [api_retried _ _ _ _ rfl]
              refine ⟨_, _, rfl, Or.inr (Or.inr ?_)⟩
              exact ⟨_, _, _, List.append_assoc _ _ _, by rw [outgoing_retry]⟩
            · exact ⟨_, _, rfl, Or.inr (Or.inl ⟨_, _, rfl⟩)⟩
          · exact ⟨_, _, rfl, Or.inr (Or.inl ⟨_, _, rfl⟩)⟩
        · exact ⟨_, _, rfl, Or.inr (Or.inl ⟨_, _, rfl⟩)⟩
      · exact ⟨_, _, rfl, Or.inr (Or.inl ⟨_, _, rfl⟩)⟩
    · exact ⟨_, _, rfl, Or.inl rfl⟩
  · exact ⟨_, _, rfl, Or.inl rfl⟩

/-- Every call of the wrapper with fuel for one retry ends; its log grows by the
request sent, then possibly one refresh call, then possibly one flagged retry. -/
theorem api_trace (env : Env) (fuel : Nat) (w : World) (config : Config) :
    ∃ w' out rest, api env (fuel + 2) w config = some (w', out) ∧
      w'.log = w.log ++ NetCall.request (outgoing env w config) :: rest ∧
      (rest = [] ∨ (∃ u r, rest = [NetCall.refresh u r]) ∨
        ∃ u r c, rest = [NetCall.refresh u r, NetCall.request c] ∧ c._retry = true) := by
  rw [api_succ]
  cases hs : settle (outgoing env w config)
      (env.backend w.log (NetCall.request (outgoing env w config))) with
  | resolved r => exact ⟨_, _, [], rfl, rfl, Or.inl rfl⟩
  | rejected e =>
    simp only
    obtain ⟨w', out, hrun, hlog⟩ := responseError_trace env fuel
      { w with log := w.log ++ [NetCall.request (outgoing env w config)] } e
    rcases hlog with hl | ⟨u, r, hl⟩ | ⟨u, r, c, hl, hc⟩
    · exact ⟨w', out, [], hrun, by simpa using hl, Or.inl rfl⟩
    · exact ⟨w', out, [NetCall.refresh u r], hrun, by simpa using hl,
        Or.inr (Or.inl ⟨u, r, rfl⟩)⟩
    · exact ⟨w', out, [NetCall.refresh u r, NetCall.request c], hrun, by simpa using hl,
        Or.inr (Or.inr ⟨u, r, c, rfl, hc⟩)⟩

/-- The retry leaves the wrapper with the credential written by the response
interceptor, whatever the refreshed token is. -/
theorem outgoing_after_refresh (env : Env) (w : World) (config : Config) (h : Dict)
    (a : String) (ht : w.storage.getItem "access_token" = some a)
    (hh : config.headers = some (h.setItem "Authorization" ("Bearer " ++ a))) :
    ∃ h', (outgoing env w config).headers = some h' ∧
      h'.getItem "Authorization" = some ("Bearer " ++ a) := by
  by_cases hne : a = ""
  · have hfalse : truthy (w.storage.getItem "access_token") = false := by
      rw [ht, hne]; rfl
    rw [outgoing_no_token env w config hfalse]
    obtain ⟨h', hm, hauth⟩ := mergeConfig_headers env config
    refine ⟨h', hm, ?_⟩
    rw [hauth, hh]
    exact Dict.getItem_setItem_self _ _ _
  · exact outgoing_bearer env w config ht hne

/-- The whole run of the wrapper when a 401 is answered by a successful refresh. -/
theorem api_refresh_ok (env : Env) (fuel : Nat) (w : World) (config : Config)
    {resp rr : Response} {r : String} {access : JVal}
    (hretry : config._retry = false)
    (hfirst : env.backend w.log (NetCall.request (outgoing env w config)) = some resp)
    (h401 : resp.status = 401)
    (hr : w.storage.getItem "refresh_token" = some r) (hne : r ≠ "")
    (hreply : env.backend (w.log ++ [NetCall.request (outgoing env w config)])
      (NetCall.refresh (env.API_BASE_URL ++ "/token/refresh/") r) = some rr)
    (hvalid : validateStatus rr.status = true)
    (haccess : rr.data.getProp "access" = some access) :
    ∃ again : Config,
      again._retry = true ∧ again.url = config.url ∧ again.method = config.method ∧
      again.data = config.data ∧
      (∃ h, again.headers = some h ∧
        h.getItem "Authorization" = some ("Bearer " ++ access.toJsString)) ∧
      api env (fuel + 2) w config =
        some ({ storage := w.storage.setItem "access_token" access.toJsString
                location := w.location
                log := w.log ++ [NetCall.request (outgoing env w config),
                  NetCall.refresh (env.API_BASE_URL ++ "/token/refresh/") r,
                  NetCall.request again] },
          settle again (env.backend
            (w.log ++ [NetCall.request (outgoing env w config),
              NetCall.refresh (env.API_BASE_URL ++ "/token/refresh/") r])
            (NetCall.request again))) := by
  obtain ⟨h, hh⟩ := outgoing_headers env w config
  obtain ⟨hurl, hmethod, hdata⟩ := outgoing_same_request env w config
  have hs : settle (outgoing env w config)
      (env.backend w.log (NetCall.request (outgoing env w config)))
      = .rejected ⟨outgoing env w config, some resp⟩ := by
    rw [hfirst]
    exact settle_of_invalid _ (by rw [h401]; exact validateStatus_401)
  have hrun := responseError_refresh_ok env (api env (fuel + 1))
    { w with log := w.log ++ [NetCall.request (outgoing env w config)] }
    ⟨outgoing env w config, some resp⟩ rfl h401
    (by rw [outgoing_retry]; exact hretry) hr hne hreply hvalid haccess hh
  refine ⟨outgoing env
      { storage := w.storage.setItem "access_token" access.toJsString
        location := w.location
        log := (w.log ++ [NetCall.request (outgoing env w config)]) ++
          [NetCall.refresh (env.API_BASE_URL ++ "/token/refresh/") r] }
      { outgoing env w config with
        _retry := true
        headers := some (h.setItem "Authorization" ("Bearer " ++ access.toJsString)) },
    ?_, ?_, ?_, ?_, ?_, ?_⟩
  · rw [outgoing_retry]
  · rw [(outgoing_same_request _ _ _).1]; exact hurl
  · rw [(outgoing_same_request _ _ _).2.1]; exact hmethod
  · rw [(outgoing_same_request _ _ _).2.2]; exact hdata
  · exact outgoing_after_refresh env _ _ h access.toJsString
      (Dict.getItem_setItem_self _ _ _) rfl
  · rw [api_succ, hs]
    simp only
    rw [hrun, api_retried _ _ _ _ rfl]
    simp only [List.append_assoc, List.singleton_append, List.cons_append, List.nil_append]

/-! ## The HTTP client wrapper: claims -/

/-- C1: for every request dispatched through the wrapper while an access token `t`
(a non-empty string) is stored under `access_token`, the request that reaches the
network is the one built by the request phase, and its `Authorization` header is
`Bearer ` followed by `t`. -/
theorem request_carries_bearer (env : Env) (fuel : Nat) (w : World) (config : Config)
    (t : String) (ht : w.storage.getItem "access_token" = some t) (hne : t ≠ "") :
    (∃ h, (outgoing env w config).headers = some h ∧
      h.getItem "Authorization" = some ("Bearer " ++ t)) ∧
    ∃ w' out rest, api env (fuel + 2) w config = some (w', out) ∧
      w'.log = w.log ++ NetCall.request (outgoing env w config) :: rest := by
  refine ⟨outgoing_bearer env w config ht hne, ?_⟩
  obtain ⟨w', out, rest, hrun, hlog, -⟩ := api_trace env fuel w config
  exact ⟨w', out, rest, hrun, hlog⟩

theorem request_carries_bearer_witness :
    (∃ h, (outgoing rejectingEnv sampleWorld sampleConfig).headers = some h ∧
      h.getItem "Authorization" = some ("Bearer " ++ "a1")) ∧
    ∃ w' out rest, api rejectingEnv (0 + 2) sampleWorld sampleConfig = some (w', out) ∧
      w'.log = sampleWorld.log ++
        NetCall.request (outgoing rejectingEnv sampleWorld sampleConfig) :: rest :=
  request_carries_bearer rejectingEnv 0 sampleWorld sampleConfig "a1" (by decide) (by decide)

/-- C2: a request not yet marked retried receives 401 while a refresh token `r` is
stored, and the refresh call succeeds with the access token `a`. Then the network
sees, after the request, exactly one call of `/token/refresh/` with `r` and then
exactly one more dispatch of the same request (same url, method and body, flagged
as retried, `Authorization` equal to `Bearer a`); `a` is stored under
`access_token`; and the caller gets exactly what that retry settles to. -/
theorem refresh_then_retry (env : Env) (fuel : Nat) (w : World) (config : Config)
    (resp rr : Response) (r a : String)
    (hretry : config._retry = false)
    (hfirst : env.backend w.log (NetCall.request (outgoing env w config)) = some resp)
    (h401 : resp.status = 401)
    (hr : w.storage.getItem "refresh_token" = some r) (hne : r ≠ "")
    (hreply : env.backend (w.log ++ [NetCall.request (outgoing env w config)])
      (NetCall.refresh (env.API_BASE_URL ++ "/token/refresh/") r) = some rr)
    (hvalid : validateStatus rr.status = true)
    (haccess : rr.data.getProp "access" = some (JVal.str a)) :
    ∃ again : Config,
      again._retry = true ∧ again.url = config.url ∧ again.method = config.method ∧
      again.data = config.data ∧
      (∃ h, again.headers = some h ∧ h.getItem "Authorization" = some ("Bearer " ++ a)) ∧
      api env (fuel + 2) w config =
        some ({ storage := w.storage.setItem "access_token" a
                location := w.location
                log := w.log ++ [NetCall.request (outgoing env w config),
                  NetCall.refresh (env.API_BASE_URL ++ "/token/refresh/") r,
                  NetCall.request again] },
          settle again (env.backend
            (w.log ++ [NetCall.request (outgoing env w config),
              NetCall.refresh (env.API_BASE_URL ++ "/token/refresh/") r])
            (NetCall.request again))) :=
  api_refresh_ok env fuel w config hretry hfirst h401 hr hne hreply hvalid haccess

theorem refresh_then_retry_witness :
    ∃ again : Config,
      again._retry = true ∧ again.url = "/orders/" ∧ again.method = "get" ∧
      again.data = none ∧
      (∃ h, again.headers = some h ∧ h.getItem "Authorization" = some ("Bearer " ++ "a2")) ∧
      api rejectingEnv (0 + 2) sampleWorld sampleConfig =
        some ({ storage := sampleWorld.storage.setItem "access_token" "a2"
                location := "/dashboard"
                log := sampleWorld.log ++
                  [NetCall.request (outgoing rejectingEnv sampleWorld sampleConfig),
                  NetCall.refresh (rejectingEnv.API_BASE_URL ++ "/token/refresh/") "r1",
                  NetCall.request again] },
          settle again (rejectingEnv.backend
            (sampleWorld.log ++
              [NetCall.request (outgoing rejectingEnv sampleWorld sampleConfig),
              NetCall.refresh (rejectingEnv.API_BASE_URL ++ "/token/refresh/") "r1"])
            (NetCall.request again))) :=
  refresh_then_retry rejectingEnv 0 sampleWorld sampleConfig ⟨401, .null⟩
    ⟨200, .obj [("access", .str "a2")]⟩ "r1" "a2" rfl rfl rfl (by decide) (by decide) rfl
    (by decide) rfl

/-- C3: a request not yet marked retried receives 401 while a refresh token is
stored, and the refresh call fails (no response, or a status outside 2xx). Then
none of `access_token`, `refresh_token`, `user` is stored afterwards, the location
is `/login`, and the call rejects with the 401 error of the request (its
configuration now flagged as retried); the network saw the request and one
refresh call. -/
theorem refresh_failure_ends_session (env : Env) (fuel : Nat) (w : World)
    (config : Config) (resp : Response) (r : String)
    (hretry : config._retry = false)
    (hfirst : env.backend w.log (NetCall.request (outgoing env w config)) = some resp)
    (h401 : resp.status = 401)
    (hr : w.storage.getItem "refresh_token" = some r) (hne : r ≠ "")
    (hfail : ∀ rr, env.backend (w.log ++ [NetCall.request (outgoing env w config)])
        (NetCall.refresh (env.API_BASE_URL ++ "/token/refresh/") r) = some rr →
      validateStatus rr.status = false) :
    ∃ w', api env (fuel + 1) w config =
        some (w', .rejected ⟨{ outgoing env w config with _retry := true }, some resp⟩) ∧
      w'.storage.getItem "access_token" = none ∧
      w'.storage.getItem "refresh_token" = none ∧
      w'.storage.getItem "user" = none ∧
      w'.location = "/login" ∧
      w'.log = w.log ++ [NetCall.request (outgoing env w config),
        NetCall.refresh (env.API_BASE_URL ++ "/token/refresh/") r] := by
  have hs : settle (outgoing env w config)
      (env.backend w.log (NetCall.request (outgoing env w config)))
      = .rejected ⟨outgoing env w config, some resp⟩ := by
    rw [hfirst]
    exact settle_of_invalid _ (by rw [h401]; exact validateStatus_401)
  have hrun := responseError_refresh_failed env (api env fuel)
    { w with log := w.log ++ [NetCall.request (outgoing env w config)] }
    ⟨outgoing env w config, some resp⟩ rfl h401
    (by rw [outgoing_retry]; exact hretry) hr hne hfail
  rw [api_succ, hs]
  simp only
  rw [hrun]
  refine ⟨_, rfl, ?_, ?_, ?_, rfl, ?_⟩
  · simp only [refreshFailed]
    rw [Dict.getItem_removeItem_ne _ (by decide), Dict.getItem_removeItem_ne _ (by decide)]
    exact Dict.getItem_removeItem_self _ _
  · simp only [refreshFailed]
    rw [Dict.getItem_removeItem_ne _ (by decide)]
    exact Dict.getItem_removeItem_self _ _
  · simp only [refreshFailed]
    exact Dict.getItem_removeItem_self _ _
  · simp only [refreshFailed, List.append_assoc, List.singleton_append]

theorem refresh_failure_ends_session_witness :
    ∃ w', api expiredEnv (0 + 1) sampleWorld sampleConfig =
        some (w', .rejected
          ⟨{ outgoing expiredEnv sampleWorld sampleConfig with _retry := true },
            some ⟨401, .null⟩⟩) ∧
      w'.storage.getItem "access_token" = none ∧
      w'.storage.getItem "refresh_token" = none ∧
      w'.storage.getItem "user" = none ∧
      w'.location = "/login" ∧
      w'.log = sampleWorld.log ++
        [NetCall.request (outgoing expiredEnv sampleWorld sampleConfig),
        NetCall.refresh (expiredEnv.API_BASE_URL ++ "/token/refresh/") "r1"] :=
  refresh_failure_ends_session expiredEnv 0 sampleWorld sampleConfig ⟨401, .null⟩ "r1"
    rfl rfl rfl (by decide) (by decide)
    (fun rr hrr => by
      have h400 : rr = ⟨400, .null⟩ := (Option.some.inj hrr).symm
      rw [h400]; decide)

/-- C4, as stated, fails: with an access token and a profile stored but no refresh
token, a request that is answered 401 leaves both slots in place and leaves the
location where it was. -/
theorem no_refresh_token_counterexample :
    sampleConfig._retry = false ∧
    (rejectingEnv.backend noRefreshWorld.log
      (NetCall.request (outgoing rejectingEnv noRefreshWorld sampleConfig))).map
        (fun resp => resp.status) = some 401 ∧
    noRefreshWorld.storage.getItem "refresh_token" = none ∧
    (api rejectingEnv 2 noRefreshWorld sampleConfig).map
        (fun p => (p.1.storage, p.1.location)) =
      some ([("access_token", "a1"), ("user", "\x7b\x7d")], "/dashboard") := by
  decide

/-- C4, amended: a request not yet marked retried receives 401 while no refresh
token is stored (the slot is absent or empty). Then the wrapper makes no refresh
call and no retry, leaves the storage and the location as they were, and rejects
the call with the 401 error of the request (its configuration now flagged as
retried). -/
theorem no_refresh_token_rejects (env : Env) (fuel : Nat) (w : World) (config : Config)
    (resp : Response)
    (hretry : config._retry = false)
    (hfirst : env.backend w.log (NetCall.request (outgoing env w config)) = some resp)
    (h401 : resp.status = 401)
    (hr : truthy (w.storage.getItem "refresh_token") = false) :
    api env (fuel + 1) w config =
      some ({ storage := w.storage
              location := w.location
              log := w.log ++ [NetCall.request (outgoing env w config)] },
        .rejected ⟨{ outgoing env w config with _retry := true }, some resp⟩) := by
  have hs : settle (outgoing env w config)
      (env.backend w.log (NetCall.request (outgoing env w config)))
      = .rejected ⟨outgoing env w config, some resp⟩ := by
    rw [hfirst]
    exact settle_of_invalid _ (by rw [h401]; exact validateStatus_401)
  have hrun := responseError_no_refresh_token env (api env fuel)
    { w with log := w.log ++ [NetCall.request (outgoing env w config)] }
    ⟨outgoing env w config, some resp⟩ rfl h401
    (by rw [outgoing_retry]; exact hretry) hr
  rw [api_succ, hs]
  simp only
  rw [hrun]

theorem no_refresh_token_rejects_witness :
    api rejectingEnv (0 + 1) noRefreshWorld sampleConfig =
      some ({ storage := noRefreshWorld.storage
              location := noRefreshWorld.location
              log := noRefreshWorld.log ++
                [NetCall.request (outgoing rejectingEnv noRefreshWorld sampleConfig)] },
        .rejected ⟨{ outgoing rejectingEnv noRefreshWorld sampleConfig with _retry := true },
          some ⟨401, .null⟩⟩) :=
  no_refresh_token_rejects rejectingEnv 0 noRefreshWorld sampleConfig ⟨401, .null⟩
    rfl rfl rfl (by decide)

/-- C5: a request already marked retried receives 401. The rejection handler
returns the world as it was (no refresh call, no storage change, no redirect) and
rejects with the same error, whatever the retry function would do; seen from the
caller, the wrapper dispatches the request once and rejects with its 401 error. -/
theorem retried_401_propagates (env : Env) (fuel : Nat) (w : World) :
    (∀ (api' : World → Config → Option (World × Outcome)) (error : AxiosError)
        (resp : Response),
      error.config._retry = true → error.response = some resp → resp.status = 401 →
      responseError env api' w error = some (w, .rejected error)) ∧
    (∀ (config : Config) (resp : Response),
      config._retry = true →
      env.backend w.log (NetCall.request (outgoing env w config)) = some resp →
      resp.status = 401 →
      api env (fuel + 1) w config =
        some ({ storage := w.storage
                location := w.location
                log := w.log ++ [NetCall.request (outgoing env w config)] },
          .rejected ⟨outgoing env w config, some resp⟩)) := by
  constructor
  · intro api' error resp hretry _ _
    apply responseError_passthrough
    rintro ⟨-, h2⟩
    rw [hretry] at h2
    exact Bool.noConfusion h2
  · intro config resp hretry hfirst h401
    rw [api_retried env fuel w config hretry, hfirst,
      settle_of_invalid _ (by rw [h401]; exact validateStatus_401)]

theorem retried_401_propagates_witness :
    responseError rejectingEnv (fun _ _ => none) sampleWorld
        ⟨{ sampleConfig with _retry := true }, some ⟨401, .null⟩⟩ =
      some (sampleWorld, .rejected ⟨{ sampleConfig with _retry := true }, some ⟨401, .null⟩⟩) ∧
    api rejectingEnv (0 + 1) sampleWorld { sampleConfig with _retry := true } =
      some ({ storage := sampleWorld.storage
              location := sampleWorld.location
              log := sampleWorld.log ++ [NetCall.request
                (outgoing rejectingEnv sampleWorld { sampleConfig with _retry := true })] },
        .rejected ⟨outgoing rejectingEnv sampleWorld { sampleConfig with _retry := true },
          some ⟨401, .null⟩⟩) :=
  ⟨(retried_401_propagates rejectingEnv 0 sampleWorld).1 (fun _ _ => none)
      ⟨{ sampleConfig with _retry := true }, some ⟨401, .null⟩⟩ ⟨401, .null⟩ rfl rfl rfl,
    (retried_401_propagates rejectingEnv 0 sampleWorld).2
      { sampleConfig with _retry := true } ⟨401, .null⟩ rfl rfl rfl⟩

/-- C6: for every request, every state of the browser and every backend, the
wrapper's handling ends (fuel for one retry is enough), and the calls it adds to
the log are the request, then at most one refresh call, then at most one further
dispatch, which carries the retried flag: at most one refresh call and at most two
dispatches in all. -/
theorem at_most_one_refresh_and_retry (env : Env) (fuel : Nat) (w : World)
    (config : Config) :
    ∃ w' out new, api env (fuel + 2) w config = some (w', out) ∧
      w'.log = w.log ++ new ∧
      (new = [NetCall.request (outgoing env w config)] ∨
        (∃ u r, new = [NetCall.request (outgoing env w config), NetCall.refresh u r]) ∨
        ∃ u r c, new = [NetCall.request (outgoing env w config), NetCall.refresh u r,
          NetCall.request c] ∧ c._retry = true) ∧
      new.countP NetCall.isRefresh ≤ 1 ∧
      new.countP NetCall.isRequest ≤ 2 := by
  obtain ⟨w', out, rest, hrun, hlog, hshape⟩ := api_trace env fuel w config
  refine ⟨w', out, NetCall.request (outgoing env w config) :: rest, hrun, hlog, ?_, ?_, ?_⟩
  · rcases hshape with h | ⟨u, r, h⟩ | ⟨u, r, c, h, hc⟩
    · exact Or.inl (by rw [h])
    · exact Or.inr (Or.inl ⟨u, r, by rw [h]⟩)
    · exact Or.inr (Or.inr ⟨u, r, c, by rw [h], hc⟩)
  · rcases hshape with h | ⟨u, r, h⟩ | ⟨u, r, c, h, -⟩ <;> subst h <;>
      simp [List.countP_cons, NetCall.isRefresh]
  · rcases hshape with h | ⟨u, r, h⟩ | ⟨u, r, c, h, -⟩ <;> subst h <;>
      simp [List.countP_cons, NetCall.isRequest]

/-- C7: a failed response that is not a 401 (another status, or no response at
all). The rejection handler returns the world as it was (no refresh call, no
storage change, no redirect) and rejects with the same error, whatever the retry
function would do; seen from the caller, the wrapper dispatches the request once
and rejects with the error of that dispatch. -/
theorem other_failures_pass_through (env : Env) (fuel : Nat) (w : World) :
    (∀ (api' : World → Config → Option (World × Outcome)) (error : AxiosError),
      error.response.map (fun resp => resp.status) ≠ some 401 →
      responseError env api' w error = some (w, .rejected error)) ∧
    (∀ (config : Config) (reply : Option Response),
      env.backend w.log (NetCall.request (outgoing env w config)) = reply →
      (∀ resp, reply = some resp → validateStatus resp.status = false ∧ resp.status ≠ 401) →
      api env (fuel + 1) w config =
        some ({ storage := w.storage
                location := w.location
                log := w.log ++ [NetCall.request (outgoing env w config)] },
          .rejected ⟨outgoing env w config, reply⟩)) := by
  constructor
  · intro api' error hne
    apply responseError_passthrough
    rintro ⟨h1, -⟩
    exact hne h1
  · intro config reply hfirst hbad
    have hs : settle (outgoing env w config) reply
        = .rejected ⟨outgoing env w config, reply⟩ := by
      cases reply with
      | none => rfl
      | some resp => exact settle_of_invalid _ (hbad resp rfl).1
    rw [api_succ, hfirst, hs]
    simp only
    apply responseError_passthrough
    rintro ⟨h1, -⟩
    cases reply with
    | none => simp at h1
    | some resp =>
      simp only [Option.map_some', Option.some.injEq] at h1
      exact (hbad resp rfl).2 h1

theorem other_failures_pass_through_witness :
    responseError brokenEnv (fun _ _ => none) sampleWorld ⟨sampleConfig, none⟩ =
      some (sampleWorld, .rejected ⟨sampleConfig, none⟩) ∧
    api brokenEnv (0 + 1) sampleWorld sampleConfig =
      some ({ storage := sampleWorld.storage
              location := sampleWorld.location
              log := sampleWorld.log ++
                [NetCall.request (outgoing brokenEnv sampleWorld sampleConfig)] },
        .rejected ⟨outgoing brokenEnv sampleWorld sampleConfig, some ⟨500, .null⟩⟩) :=
  ⟨(other_failures_pass_through brokenEnv 0 sampleWorld).1 (fun _ _ => none)
      ⟨sampleConfig, none⟩ (by decide),
    (other_failures_pass_through brokenEnv 0 sampleWorld).2 sampleConfig
      (some ⟨500, .null⟩) rfl
      (fun resp hresp => by
        have h500 : resp = ⟨500, .null⟩ := (Option.some.inj hresp).symm
        rw [h500]; decide)⟩

/-- C8: a request not yet marked retried receives 401 while a refresh token is
stored, and the refresh call succeeds. For every prior storage, when the wrapper
is done `access_token` holds the returned token (as a string) and every other
slot, `refresh_token` and `user` among them, holds what it held before. -/
theorem refresh_replaces_only_access_token (env : Env) (fuel : Nat) (w : World)
    (config : Config) (resp rr : Response) (r : String) (access : JVal)
    (hretry : config._retry = false)
    (hfirst : env.backend w.log (NetCall.request (outgoing env w config)) = some resp)
    (h401 : resp.status = 401)
    (hr : w.storage.getItem "refresh_token" = some r) (hne : r ≠ "")
    (hreply : env.backend (w.log ++ [NetCall.request (outgoing env w config)])
      (NetCall.refresh (env.API_BASE_URL ++ "/token/refresh/") r) = some rr)
    (hvalid : validateStatus rr.status = true)
    (haccess : rr.data.getProp "access" = some access) :
    ∃ w' out, api env (fuel + 2) w config = some (w', out) ∧
      w'.storage.getItem "access_token" = some access.toJsString ∧
      w'.storage.getItem "refresh_token" = w.storage.getItem "refresh_token" ∧
      w'.storage.getItem "user" = w.storage.getItem "user" ∧
      (∀ k, k ≠ "access_token" → w'.storage.getItem k = w.storage.getItem k) ∧
      w'.location = w.location := by
  obtain ⟨again, -, -, -, -, -, hrun⟩ :=
    api_refresh_ok env fuel w config hretry hfirst h401 hr hne hreply hvalid haccess
  refine ⟨_, _, hrun, ?_, ?_, ?_, ?_, rfl⟩
  · exact Dict.getItem_setItem_self _ _ _
  · exact Dict.getItem_setItem_ne _ _ (by decide)
  · exact Dict.getItem_setItem_ne _ _ (by decide)
  · intro k hk
    exact Dict.getItem_setItem_ne _ _ hk

theorem refresh_replaces_only_access_token_witness :
    ∃ w' out, api rejectingEnv (0 + 2) sampleWorld sampleConfig = some (w', out) ∧
      w'.storage.getItem "access_token" = some (JVal.str "a2").toJsString ∧
      w'.storage.getItem "refresh_token" = sampleWorld.storage.getItem "refresh_token" ∧
      w'.storage.getItem "user" = sampleWorld.storage.getItem "user" ∧
      (∀ k, k ≠ "access_token" →
        w'.storage.getItem k = sampleWorld.storage.getItem k) ∧
      w'.location = sampleWorld.location :=
  refresh_replaces_only_access_token rejectingEnv 0 sampleWorld sampleConfig ⟨401, .null⟩
    ⟨200, .obj [("access", .str "a2")]⟩ "r1" (.str "a2") rfl rfl rfl (by decide) (by decide)
    rfl (by decide) rfl

/-! ## Session initialization: claims -/

theorem mountEffect_valid (parse : String → Option JVal) (storage : Dict) (s : AuthState)
    {t u : String} {p : JVal}
    (ht : storage.getItem "access_token" = some t) (hne : t ≠ "")
    (hu : storage.getItem "user" = some u) (hune : u ≠ "") (hp : parse u = some p) :
    mountEffect parse storage s = (storage, ⟨p, false⟩) := by
  simp only [mountEffect, ht, hu, truthy_some hne, truthy_some hune, Bool.and_self, if_true,
    Option.getD_some, hp]

theorem mountEffect_corrupted (parse : String → Option JVal) (storage : Dict) (s : AuthState)
    {t u : String}
    (ht : storage.getItem "access_token" = some t) (hne : t ≠ "")
    (hu : storage.getItem "user" = some u) (hune : u ≠ "") (hp : parse u = none) :
    mountEffect parse storage s = (purgeSession storage, ⟨s.user, false⟩) := by
  simp only [mountEffect, ht, hu, truthy_some hne, truthy_some hune, Bool.and_self, if_true,
    Option.getD_some, hp]

theorem mountEffect_missing (parse : String → Option JVal) (storage : Dict) (s : AuthState)
    (h : truthy (storage.getItem "access_token") = false ∨
      truthy (storage.getItem "user") = false) :
    mountEffect parse storage s = (storage, ⟨s.user, false⟩) := by
  have hc : (truthy (storage.getItem "access_token") && truthy (storage.getItem "user"))
      = false := by
    rcases h with h | h <;> simp [h]
  simp only [mountEffect, hc, Bool.false_eq_true, if_false]

/-- C9: for every persisted state, initialization hydrates the in-memory user
exactly from a valid session. If `access_token` and `user` are both present
(non-empty) and `user` parses, the user becomes the parsed profile and storage is
unchanged; if either is missing (absent or empty), the user stays `null` and
storage is unchanged; and a user other than `null` after initialization is always
the parse of a present `user` value next to a present `access_token`. -/
theorem initialization_hydrates_valid_session (parse : String → Option JVal)
    (storage : Dict) :
    (∀ t u p, storage.getItem "access_token" = some t → t ≠ "" →
      storage.getItem "user" = some u → u ≠ "" → parse u = some p →
      mountEffect parse storage AuthState.initial = (storage, ⟨p, false⟩)) ∧
    (truthy (storage.getItem "access_token") = false ∨
        truthy (storage.getItem "user") = false →
      mountEffect parse storage AuthState.initial = (storage, ⟨JVal.null, false⟩)) ∧
    ((mountEffect parse storage AuthState.initial).2.user ≠ JVal.null →
      ∃ t u, storage.getItem "access_token" = some t ∧ t ≠ "" ∧
        storage.getItem "user" = some u ∧ u ≠ "" ∧
        parse u = some (mountEffect parse storage AuthState.initial).2.user ∧
        (mountEffect parse storage AuthState.initial).1 = storage) := by
  refine ⟨?_, ?_, ?_⟩
  · intro t u p ht hne hu hune hp
    exact mountEffect_valid parse storage _ ht hne hu hune hp
  · intro h
    exact mountEffect_missing parse storage _ h
  · intro huser
    cases htok : truthy (storage.getItem "access_token") with
    | false =>
      rw [mountEffect_missing parse storage _ (Or.inl htok)] at huser
      exact absurd rfl huser
    | true =>
      cases hus : truthy (storage.getItem "user") with
      | false =>
        rw [mountEffect_missing parse storage _ (Or.inr hus)] at huser
        exact absurd rfl huser
      | true =>
        obtain ⟨t, ht, hne⟩ := truthy_eq_true htok
        obtain ⟨u, hu, hune⟩ := truthy_eq_true hus
        cases hp : parse u with
        | none =>
          rw [mountEffect_corrupted parse storage _ ht hne hu hune hp] at huser
          exact absurd rfl huser
        | some p =>
          rw [mountEffect_valid parse storage _ ht hne hu hune hp]
          exact ⟨t, u, ht, hne, hu, hune, hp, rfl⟩

theorem initialization_hydrates_valid_session_witness :
    mountEffect sampleParse sampleWorld.storage AuthState.initial
      = (sampleWorld.storage, ⟨JVal.obj [], false⟩) ∧
    mountEffect sampleParse [("user", "\x7b\x7d")] AuthState.initial
      = ([("user", "\x7b\x7d")], ⟨JVal.null, false⟩) :=
  ⟨(initialization_hydrates_valid_session sampleParse sampleWorld.storage).1
      "a1" "\x7b\x7d" (JVal.obj []) (by decide) (by decide) (by decide) (by decide) rfl,
    (initialization_hydrates_valid_session sampleParse [("user", "\x7b\x7d")]).2.1
      (Or.inl (by decide))⟩

/-- C10, as stated, fails: with no access token stored, a cached `user` value that
does not parse is never read, so it stays in storage, and so does the refresh
token. -/
theorem corrupted_user_counterexample :
    (sampleParse "\x7bbad").isNone = true ∧
    (mountEffect sampleParse [("refresh_token", "r1"), ("user", "\x7bbad")]
      AuthState.initial).1.getItem "user" = some "\x7bbad" ∧
    (mountEffect sampleParse [("refresh_token", "r1"), ("user", "\x7bbad")]
      AuthState.initial).1.getItem "refresh_token" = some "r1" := by
  decide

/-- C10, amended: for every persisted state with a non-empty `access_token` and a
non-empty cached `user` value that does not parse as JSON, initialization leaves
the in-memory user `null` and afterwards none of the three keys `access_token`,
`refresh_token`, `user` remains in storage. -/
theorem corrupted_user_purged (parse : String → Option JVal) (storage : Dict)
    (t u : String)
    (ht : storage.getItem "access_token" = some t) (hne : t ≠ "")
    (hu : storage.getItem "user" = some u) (hune : u ≠ "") (hp : parse u = none) :
    (mountEffect parse storage AuthState.initial).2 = ⟨JVal.null, false⟩ ∧
    (mountEffect parse storage AuthState.initial).1.getItem "access_token" = none ∧
    (mountEffect parse storage AuthState.initial).1.getItem "refresh_token" = none ∧
    (mountEffect parse storage AuthState.initial).1.getItem "user" = none := by
  rw [mountEffect_corrupted parse storage _ ht hne hu hune hp]
  refine ⟨rfl, ?_, ?_, ?_⟩
  · simp only [purgeSession]
    rw [Dict.getItem_removeItem_ne _ (by decide)]
    exact Dict.getItem_removeItem_self _ _
  · simp only [purgeSession]
    exact Dict.getItem_removeItem_self _ _
  · simp only [purgeSession]
    rw [Dict.getItem_removeItem_ne _ (by decide), Dict.getItem_removeItem_ne _ (by decide)]
    exact Dict.getItem_removeItem_self _ _

theorem corrupted_user_purged_witness :
    (mountEffect sampleParse
      [("access_token", "a1"), ("refresh_token", "r1"), ("user", "\x7bbad")]
      AuthState.initial).2 = ⟨JVal.null, false⟩ ∧
    (mountEffect sampleParse
      [("access_token", "a1"), ("refresh_token", "r1"), ("user", "\x7bbad")]
      AuthState.initial).1.getItem "access_token" = none ∧
    (mountEffect sampleParse
      [("access_token", "a1"), ("refresh_token", "r1"), ("user", "\x7bbad")]
      AuthState.initial).1.getItem "refresh_token" = none ∧
    (mountEffect sampleParse
      [("access_token", "a1"), ("refresh_token", "r1"), ("user", "\x7bbad")]
      AuthState.initial).1.getItem "user" = none :=
  corrupted_user_purged sampleParse
    [("access_token", "a1"), ("refresh_token", "r1"), ("user", "\x7bbad")] "a1" "\x7bbad"
    (by decide) (by decide) (by decide) (by decide) rfl

/-! ## The session context: lemmas -/

theorem removeSession_cleared (d : Dict) :
    (removeSession d).getItem "access_token" = none ∧
    (removeSession d).getItem "refresh_token" = none ∧
    (removeSession d).getItem "user" = none := by
  refine ⟨?_, ?_, ?_⟩
  · simp only [removeSession]
    rw [Dict.getItem_removeItem_ne _ (by decide), Dict.getItem_removeItem_ne _ (by decide)]
    exact Dict.getItem_removeItem_self _ _
  · simp only [removeSession]
    rw [Dict.getItem_removeItem_ne _ (by decide)]
    exact Dict.getItem_removeItem_self _ _
  · simp only [removeSession]
    exact Dict.getItem_removeItem_self _ _

theorem postForData_rejected (env : Env) (stringify : JVal → Option String) (fuel : Nat)
    (w : World) (url : String) (body : JVal) {w' : World} {e : AxiosError}
    (h : api env fuel w (post stringify url body) = some (w', .rejected e)) :
    postForData env stringify fuel w url body = some (w', .error (.axios e)) := by
  simp only [postForData, h]

theorem postForData_resolved (env : Env) (stringify : JVal → Option String) (fuel : Nat)
    (w : World) (url : String) (body : JVal) {w' : World} {resp : Response}
    (h : api env fuel w (post stringify url body) = some (w', .resolved resp)) :
    postForData env stringify fuel w url body = some (w', .ok resp.data) := by
  simp only [postForData, h]

/-- A failed login hands the error of the wrapper to the caller and leaves the
React state as it was. -/
theorem login_rejected (env : Env) (stringify : JVal → Option String) (fuel : Nat)
    (w : World) (s : AuthState) (email password : String) {w' : World} {e : AxiosError}
    (h : api env fuel w (post stringify "/token/"
      (.obj [("email", .str email), ("password", .str password)])) = some (w', .rejected e)) :
    AuthProvider.login env stringify fuel w s email password
      = some ((w', s), .error (.axios e)) := by
  simp only [AuthProvider.login, authAPI.login, postForData_rejected _ _ _ _ _ _ h]

/-- A request whose failure is not a 401 met with a stored refresh token is
dispatched once and rejected; storage and location stay as they were. -/
theorem api_rejects_plain (env : Env) (fuel : Nat) (w : World) (config : Config)
    (reply : Option Response)
    (hreply : env.backend w.log (NetCall.request (outgoing env w config)) = reply)
    (hbad : ∀ resp, reply = some resp → validateStatus resp.status = false)
    (hno : ∀ resp, reply = some resp → resp.status = 401 →
      truthy (w.storage.getItem "refresh_token") = false) :
    ∃ e, api env (fuel + 1) w config =
        some ({ storage := w.storage
                location := w.location
                log := w.log ++ [NetCall.request (outgoing env w config)] },
          .rejected e) ∧
      e.response = reply ∧ e.config.url = config.url := by
  have hurl := (outgoing_same_request env w config).1
  have hs : settle (outgoing env w config) reply
      = .rejected ⟨outgoing env w config, reply⟩ := by
    cases reply with
    | none => rfl
    | some resp => exact settle_of_invalid _ (hbad resp rfl)
  rw [api_succ, hreply, hs]
  simp only
  by_cases hc : (reply.map (·.status)) = some 401 ∧ (outgoing env w config)._retry = false
  · obtain ⟨h401, hretry⟩ := hc
    cases reply with
    | none => simp at h401
    | some resp =>
      have hstatus : resp.status = 401 := by simpa using h401
      rw [responseError_no_refresh_token env (api env fuel)
        { storage := w.storage
          location := w.location
          log := w.log ++ [NetCall.request (outgoing env w config)] }
        ⟨outgoing env w config, some resp⟩ rfl hstatus hretry (hno resp rfl hstatus)]
      exact ⟨_, rfl, rfl, hurl⟩
  · rw [responseError_passthrough env (api env fuel) _ ⟨outgoing env w config, reply⟩ hc]
    exact ⟨_, rfl, rfl, hurl⟩

/-! ## The session context: claims -/

/-- C11: for every content of the persisted storage, every parse function and
every prior React state, the initialization effect returns (the parse error is
caught inside it) and ends with `isLoading` set to `false`. -/
theorem initialization_ends_loading (parse : String → Option JVal) (storage : Dict)
    (s : AuthState) : (mountEffect parse storage s).2.isLoading = false := by
  unfold mountEffect
  simp only
  split
  · split <;> rfl
  · rfl

/-- C12: a login whose API call resolves with a body holding `access_token: a`,
`refresh_token: r` and `user: u` resolves; afterwards storage holds `a` under
`access_token`, `r` under `refresh_token` and the JSON text of `u` under `user`,
the in-memory user is `u`, and `isAuthenticated` is the truthiness of `u`. -/
theorem login_success_persists_session (env : Env) (stringify : JVal → Option String)
    (fuel : Nat) (w : World) (s : AuthState) (email password : String)
    (w1 : World) (resp : Response) (a r text : String) (u : JVal)
    (hcall : api env fuel w (post stringify "/token/"
      (.obj [("email", .str email), ("password", .str password)]))
        = some (w1, .resolved resp))
    (ha : resp.data.getProp "access_token" = some (.str a))
    (hr : resp.data.getProp "refresh_token" = some (.str r))
    (hu : resp.data.getProp "user" = some u)
    (htext : stringify u = some text) :
    ∃ w', AuthProvider.login env stringify fuel w s email password
        = some ((w', { user := u, isLoading := s.isLoading }), .ok ()) ∧
      w'.storage.getItem "access_token" = some a ∧
      w'.storage.getItem "refresh_token" = some r ∧
      w'.storage.getItem "user" = some text ∧
      w'.location = w1.location ∧ w'.log = w1.log ∧
      AuthProvider.isAuthenticated { user := u, isLoading := s.isLoading } = u.toBoolean := by
  refine ⟨{ w1 with storage := ((w1.storage.setItem "access_token" a).setItem
      "refresh_token" r).setItem "user" text }, ?_, ?_, ?_, ?_, rfl, rfl, rfl⟩
  · simp only [AuthProvider.login, authAPI.login, postForData_resolved _ _ _ _ _ _ hcall,
      ha, hr, hu, htext, JVal.toJsString, Option.getD_some]
  · simp only
    rw [Dict.getItem_setItem_ne _ _ (by decide), Dict.getItem_setItem_ne _ _ (by decide)]
    exact Dict.getItem_setItem_self _ _ _
  · simp only
    rw [Dict.getItem_setItem_ne _ _ (by decide)]
    exact Dict.getItem_setItem_self _ _ _
  · exact Dict.getItem_setItem_self _ _ _

theorem login_success_persists_session_witness :
    ∃ w', AuthProvider.login acceptingEnv sampleStringify 1 loggedOutWorld AuthState.initial
        "a@b.com" "secret1"
        = some ((w', { user := .obj [], isLoading := AuthState.initial.isLoading }), .ok ()) ∧
      w'.storage.getItem "access_token" = some "a9" ∧
      w'.storage.getItem "refresh_token" = some "r9" ∧
      w'.storage.getItem "user" = some "\x7b\x7d" ∧
      w'.location = "/login" ∧
      w'.log = [NetCall.request (outgoing acceptingEnv loggedOutWorld
        (post sampleStringify "/token/"
          (.obj [("email", .str "a@b.com"), ("password", .str "secret1")])))] ∧
      AuthProvider.isAuthenticated
        { user := .obj [], isLoading := AuthState.initial.isLoading } = (JVal.obj []).toBoolean :=
  login_success_persists_session acceptingEnv sampleStringify 1 loggedOutWorld
    AuthState.initial "a@b.com" "secret1"
    { storage := [], location := "/login",
      log := [NetCall.request (outgoing acceptingEnv loggedOutWorld
        (post sampleStringify "/token/"
          (.obj [("email", .str "a@b.com"), ("password", .str "secret1")])))] }
    ⟨200, .obj [("access_token", .str "a9"), ("refresh_token", .str "r9"), ("user", .obj [])]⟩
    "a9" "r9" "\x7b\x7d" (.obj []) rfl rfl rfl rfl rfl

/-- C13, as stated, fails: with a session stored, a login that is answered 401
sends the stored refresh token to the refresh endpoint, and when that call fails
the three slots are removed and the location becomes `/login`. -/
theorem login_failure_counterexample :
    sampleWorld.storage.getItem "refresh_token" = some "r1" ∧
    (expiredEnv.backend sampleWorld.log (NetCall.request (outgoing expiredEnv sampleWorld
      (post sampleStringify "/token/"
        (.obj [("email", .str "a@b.com"), ("password", .str "secret1")]))))).map
        (fun resp => resp.status) = some 401 ∧
    (AuthProvider.login expiredEnv sampleStringify 2 sampleWorld AuthState.initial
      "a@b.com" "secret1").map
        (fun p => (p.1.1.storage.getItem "access_token",
          p.1.1.storage.getItem "refresh_token", p.1.1.storage.getItem "user",
          p.1.1.location))
      = some (none, none, none, "/login") := by
  decide

/-- C13, amended: for every prior session state, a login whose API call is rejected
with an error rejects with that error and leaves the in-memory user as it was; and
when the failure is not an HTTP 401 answered while a refresh token is stored (no
response, a status other than 401, or a 401 with no refresh token), the values
under `access_token`, `refresh_token` and `user` and the location are as before. -/
theorem login_failure_keeps_session (env : Env) (stringify : JVal → Option String)
    (fuel : Nat) (w : World) (s : AuthState) (email password : String) :
    (∀ w' e, api env fuel w (post stringify "/token/"
        (.obj [("email", .str email), ("password", .str password)]))
          = some (w', .rejected e) →
      AuthProvider.login env stringify fuel w s email password
        = some ((w', s), .error (.axios e))) ∧
    (∀ reply, env.backend w.log (NetCall.request (outgoing env w (post stringify "/token/"
        (.obj [("email", .str email), ("password", .str password)])))) = reply →
      (∀ resp, reply = some resp → validateStatus resp.status = false) →
      (∀ resp, reply = some resp → resp.status = 401 →
        truthy (w.storage.getItem "refresh_token") = false) →
      ∃ e, e.response = reply ∧
        AuthProvider.login env stringify (fuel + 1) w s email password
          = some (({ storage := w.storage
                     location := w.location
                     log := w.log ++ [NetCall.request (outgoing env w (post stringify "/token/"
                       (.obj [("email", .str email), ("password", .str password)])))] }, s),
            .error (.axios e))) := by
  constructor
  · intro w' e h
    exact login_rejected env stringify fuel w s email password h
  · intro reply hreply hbad hno
    obtain ⟨e, hrun, hresp, -⟩ := api_rejects_plain env fuel w _ reply hreply hbad hno
    exact ⟨e, hresp, login_rejected env stringify (fuel + 1) w s email password hrun⟩

theorem login_failure_keeps_session_witness :
    ∃ e, e.response = some ⟨500, .null⟩ ∧
      AuthProvider.login brokenEnv sampleStringify (0 + 1) sampleWorld AuthState.initial
          "a@b.com" "secret1"
        = some (({ storage := sampleWorld.storage
                   location := sampleWorld.location
                   log := sampleWorld.log ++ [NetCall.request (outgoing brokenEnv sampleWorld
                     (post sampleStringify "/token/"
                       (.obj [("email", .str "a@b.com"), ("password", .str "secret1")])))] },
            AuthState.initial),
          .error (.axios e)) :=
  (login_failure_keeps_session brokenEnv sampleStringify 0 sampleWorld AuthState.initial
    "a@b.com" "secret1").2 (some ⟨500, .null⟩) rfl
    (fun resp hresp => by
      have h500 : resp = ⟨500, .null⟩ := (Option.some.inj hresp).symm
      rw [h500]; decide)
    (fun resp hresp h401 => by
      have h500 : resp = ⟨500, .null⟩ := (Option.some.inj hresp).symm
      rw [h500] at h401
      exact absurd h401 (by decide))

/-! ## The lock-step of the three slots: lemmas -/

theorem lockStep_of_cleared {d : Dict} (ha : d.getItem "access_token" = none)
    (hr : d.getItem "refresh_token" = none) (hu : d.getItem "user" = none) :
    lockStep d = true := by
  simp [lockStep, ha, hr, hu]

theorem lockStep_of_present {d : Dict} {a r u : String}
    (ha : d.getItem "access_token" = some a)
    (hr : d.getItem "refresh_token" = some r) (hu : d.getItem "user" = some u) :
    lockStep d = true := by
  simp [lockStep, ha, hr, hu]

theorem lockStep_setItem_access {d : Dict} (a : String) (h : lockStep d = true)
    (hr : truthy (d.getItem "refresh_token") = true) :
    lockStep (d.setItem "access_token" a) = true := by
  obtain ⟨r, hr', -⟩ := truthy_eq_true hr
  have hu : ∃ u, d.getItem "user" = some u := by
    cases hu : d.getItem "user" with
    | none => simp [lockStep, hr', hu] at h
    | some u => exact ⟨u, rfl⟩
  obtain ⟨u, hu⟩ := hu
  exact lockStep_of_present (Dict.getItem_setItem_self _ _ _)
    ((Dict.getItem_setItem_ne _ _ (by decide)).trans hr')
    ((Dict.getItem_setItem_ne _ _ (by decide)).trans hu)

/-- What a run of the rejection handler can do to the storage: nothing, replace
the access token (only when a refresh token is stored), or remove the three slots. -/
theorem responseError_storage (env : Env) (fuel : Nat) (w : World) (error : AxiosError) :
    ∃ w' out, responseError env (api env (fuel + 1)) w error = some (w', out) ∧
      (w'.storage = w.storage ∨
        (truthy (w.storage.getItem "refresh_token") = true ∧
          ∃ a, w'.storage = w.storage.setItem "access_token" a) ∨
        (w'.storage.getItem "access_token" = none ∧
          w'.storage.getItem "refresh_token" = none ∧ w'.storage.getItem "user" = none)) := by
  unfold responseError
  split
  · simp only
    split
    · rename_i htruthy
      split
      · split
        · split
          · split
            · rw [api_retried _ _ _ _ rfl]
              exact ⟨_, _, rfl, Or.inr (Or.inl ⟨htruthy, _, rfl⟩)⟩
            · exact ⟨_, _, rfl, Or.inr (Or.inr (removeSession_cleared _))⟩
          · exact ⟨_, _, rfl, Or.inr (Or.inr (removeSession_cleared _))⟩
        · exact ⟨_, _, rfl, Or.inr (Or.inr (removeSession_cleared _))⟩
      · exact ⟨_, _, rfl, Or.inr (Or.inr (removeSession_cleared _))⟩
    · exact ⟨_, _, rfl, Or.inl rfl⟩
  · exact ⟨_, _, rfl, Or.inl rfl⟩

theorem api_storage (env : Env) (fuel : Nat) (w : World) (config : Config) :
    ∃ w' out, api env (fuel + 2) w config = some (w', out) ∧
      (w'.storage = w.storage ∨
        (truthy (w.storage.getItem "refresh_token") = true ∧
          ∃ a, w'.storage = w.storage.setItem "access_token" a) ∨
        (w'.storage.getItem "access_token" = none ∧
          w'.storage.getItem "refresh_token" = none ∧ w'.storage.getItem "user" = none)) := by
  rw [api_succ]
  cases hs : settle (outgoing env w config)
      (env.backend w.log (NetCall.request (outgoing env w config))) with
  | resolved r => exact ⟨_, _, rfl, Or.inl rfl⟩
  | rejected e =>
    simp only
    exact responseError_storage env fuel
      { w with log := w.log ++ [NetCall.request (outgoing env w config)] } e

/-- The wrapper returns and keeps the three slots in lock-step. -/
theorem api_lockStep (env : Env) (fuel : Nat) (w : World) (config : Config)
    (h : lockStep w.storage = true) :
    ∃ w' out, api env (fuel + 2) w config = some (w', out) ∧ lockStep w'.storage = true := by
  obtain ⟨w', out, hrun, hst⟩ := api_storage env fuel w config
  refine ⟨w', out, hrun, ?_⟩
  rcases hst with hsame | ⟨hr, a, hset⟩ | ⟨ha, hr, hu⟩
  · rw [hsame]; exact h
  · rw [hset]; exact lockStep_setItem_access a h hr
  · exact lockStep_of_cleared ha hr hu

/-- The server call of `authAPI.logout` never decides its result: the method
returns, and the three slots are gone. -/
theorem authAPI_logout_clears (env : Env) (stringify : JVal → Option String) (fuel : Nat)
    (w : World) :
    ∃ w', authAPI.logout env stringify (fuel + 2) w = some (w', .ok ()) ∧
      w'.storage.getItem "access_token" = none ∧
      w'.storage.getItem "refresh_token" = none ∧
      w'.storage.getItem "user" = none := by
  unfold authAPI.logout
  simp only
  split
  · obtain ⟨w1, out, -, hrun, -⟩ := api_trace env fuel w
      (post stringify "/users/logout/"
        (.obj [("refresh_token", .str ((w.storage.getItem "refresh_token").getD ""))]))
    rw [hrun]
    exact ⟨_, rfl, removeSession_cleared _⟩
  · exact ⟨_, rfl, removeSession_cleared _⟩

/-- The operation `logout` of the context returns normally with the user reset
and the three slots gone. -/
theorem logout_returns_cleared (env : Env) (stringify : JVal → Option String) (fuel : Nat)
    (w : World) (s : AuthState) :
    ∃ w', AuthProvider.logout env stringify (fuel + 2) w s
        = some ((w', { user := .null, isLoading := s.isLoading }), .ok ()) ∧
      w'.storage.getItem "access_token" = none ∧
      w'.storage.getItem "refresh_token" = none ∧
      w'.storage.getItem "user" = none := by
  obtain ⟨w', hrun, hclear⟩ := authAPI_logout_clears env stringify fuel w
  refine ⟨w', ?_, hclear⟩
  simp only [AuthProvider.logout, hrun]

/-! ## The session context: claims (continued) -/

/-- C14: for every prior session state and every behaviour of the server, `logout`
returns without an exception for the caller, the in-memory user is `null`
afterwards, and `access_token`, `refresh_token` and `user` are all removed from
storage. -/
theorem logout_always_clears (env : Env) (stringify : JVal → Option String) (fuel : Nat)
    (w : World) (s : AuthState) :
    ∃ w', AuthProvider.logout env stringify (fuel + 2) w s
        = some ((w', { user := .null, isLoading := s.isLoading }), .ok ()) ∧
      w'.storage.getItem "access_token" = none ∧
      w'.storage.getItem "refresh_token" = none ∧
      w'.storage.getItem "user" = none :=
  logout_returns_cleared env stringify fuel w s

/-- C15: starting from a storage in which `access_token`, `refresh_token` and
`user` are all present or all absent, every session operation ends in such a
storage: any call through the wrapper (refresh success and refresh failure
included), `login` whether it resolves or rejects, `logout`, and the
initialization effect. -/
theorem lock_step_preserved (env : Env) (stringify : JVal → Option String)
    (parse : String → Option JVal) (fuel : Nat) (w : World) (s : AuthState)
    (h : lockStep w.storage = true) :
    (∀ config w' out, api env (fuel + 2) w config = some (w', out) →
      lockStep w'.storage = true) ∧
    (∀ email password w' s' r,
      AuthProvider.login env stringify (fuel + 2) w s email password = some ((w', s'), r) →
      lockStep w'.storage = true) ∧
    (∀ w' s' r, AuthProvider.logout env stringify (fuel + 2) w s = some ((w', s'), r) →
      lockStep w'.storage = true) ∧
    lockStep (mountEffect parse w.storage s).1 = true := by
  refine ⟨?_, ?_, ?_, ?_⟩
  · intro config w' out hrun
    obtain ⟨w1, out1, hrun1, hls⟩ := api_lockStep env fuel w config h
    rw [hrun1] at hrun
    cases hrun
    exact hls
  · intro email password w' s' r hrun
    obtain ⟨w1, out1, hrun1, hls⟩ := api_lockStep env fuel w
      (post stringify "/token/" (.obj [("email", .str email), ("password", .str password)])) h
    simp only [AuthProvider.login, authAPI.login, postForData, hrun1] at hrun
    cases out1 with
    | rejected e =>
      simp only [Option.some.injEq, Prod.mk.injEq] at hrun
      rw [← hrun.1.1]; exact hls
    | resolved resp =>
      simp only at hrun
      split at hrun
      · simp only [Option.some.injEq, Prod.mk.injEq] at hrun
        rw [← hrun.1.1]
        exact lockStep_of_present
          ((Dict.getItem_setItem_ne _ _ (by decide)).trans
            ((Dict.getItem_setItem_ne _ _ (by decide)).trans
              (Dict.getItem_setItem_self _ _ _)))
          ((Dict.getItem_setItem_ne _ _ (by decide)).trans (Dict.getItem_setItem_self _ _ _))
          (Dict.getItem_setItem_self _ _ _)
      · simp only [Option.some.injEq, Prod.mk.injEq] at hrun
        rw [← hrun.1.1]; exact hls
  · intro w' s' r hrun
    obtain ⟨w1, hrun1, ha, hr, hu⟩ := logout_returns_cleared env stringify fuel w s
    rw [hrun1] at hrun
    simp only [Option.some.injEq, Prod.mk.injEq] at hrun
    rw [← hrun.1.1]
    exact lockStep_of_cleared ha hr hu
  · unfold mountEffect
    simp only
    split
    · split
      · exact h
      · exact lockStep_of_cleared
          (by simp only [purgeSession]
              rw [Dict.getItem_removeItem_ne _ (by decide)]
              exact Dict.getItem_removeItem_self _ _)
          (by simp only [purgeSession]
              exact Dict.getItem_removeItem_self _ _)
          (by simp only [purgeSession]
              rw [Dict.getItem_removeItem_ne _ (by decide),
                Dict.getItem_removeItem_ne _ (by decide)]
              exact Dict.getItem_removeItem_self _ _)
    · exact h

theorem lock_step_preserved_witness :
    (∀ config w' out, api rejectingEnv (0 + 2) sampleWorld config = some (w', out) →
      lockStep w'.storage = true) ∧
    (∀ email password w' s' r,
      AuthProvider.login rejectingEnv sampleStringify (0 + 2) sampleWorld AuthState.initial
        email password = some ((w', s'), r) →
      lockStep w'.storage = true) ∧
    (∀ w' s' r,
      AuthProvider.logout rejectingEnv sampleStringify (0 + 2) sampleWorld AuthState.initial
        = some ((w', s'), r) →
      lockStep w'.storage = true) ∧
    lockStep (mountEffect sampleParse sampleWorld.storage AuthState.initial).1 = true :=
  lock_step_preserved rejectingEnv sampleStringify sampleParse 0 sampleWorld
    AuthState.initial (by decide)

/-! ## The context value and the route guards: lemmas -/

theorem logout_resets_user (env : Env) (stringify : JVal → Option String) (fuel : Nat)
    (w : World) (s : AuthState) {w' : World} {s' : AuthState} {r : Except Thrown Unit}
    (h : AuthProvider.logout env stringify fuel w s = some ((w', s'), r)) :
    s'.user = JVal.null := by
  unfold AuthProvider.logout at h
  cases hl : authAPI.logout env stringify fuel w with
  | none => simp [hl] at h
  | some p =>
    obtain ⟨w1, r1⟩ := p
    simp only [hl, Option.some.injEq, Prod.mk.injEq] at h
    rw [← h.1.2]

theorem login_error_keeps_state (env : Env) (stringify : JVal → Option String) (fuel : Nat)
    (w : World) (s : AuthState) (email password : String) {w' : World} {s' : AuthState}
    {err : Thrown}
    (h : AuthProvider.login env stringify fuel w s email password
      = some ((w', s'), .error err)) :
    s' = s := by
  unfold AuthProvider.login at h
  cases hl : authAPI.login env stringify fuel w
      (.obj [("email", .str email), ("password", .str password)]) with
  | none => simp [hl] at h
  | some p =>
    obtain ⟨w1, r1⟩ := p
    cases r1 with
    | error e =>
      simp only [hl, Option.some.injEq, Prod.mk.injEq] at h
      exact h.1.2.symm
    | ok response =>
      simp only [hl] at h
      split at h
      · simp at h
      · simp only [Option.some.injEq, Prod.mk.injEq] at h
        exact h.1.2.symm

theorem awaitOrThrow_rejected (env : Env) (stringify : JVal → Option String) (fuel : Nat)
    (w : World) (s : AuthState) (url : String) (body : JVal) {w' : World} {e : AxiosError}
    (h : api env fuel w (post stringify url body) = some (w', .rejected e)) :
    awaitOrThrow s (postForData env stringify fuel w url body)
      = some ((w', s), .error (.axios e)) := by
  simp only [awaitOrThrow, postForData_rejected _ _ _ _ _ _ h]

theorem awaitOrThrow_resolved (env : Env) (stringify : JVal → Option String) (fuel : Nat)
    (w : World) (s : AuthState) (url : String) (body : JVal) {w' : World} {resp : Response}
    (h : api env fuel w (post stringify url body) = some (w', .resolved resp)) :
    awaitOrThrow s (postForData env stringify fuel w url body) = some ((w', s), .ok ()) := by
  simp only [awaitOrThrow, postForData_resolved _ _ _ _ _ _ h]

theorem prop_user (value : ContextValue) : value.prop "user" = value.user := by
  simp [ContextValue.prop]

theorem prop_loading (value : ContextValue) : value.prop "loading" = JVal.undefined := by
  simp [ContextValue.prop]

theorem protectedRoute_eq (value : ContextValue) :
    ProtectedRoute (some value) =
      .ok (if value.user.toBoolean then Element.children else Element.navigate "/login") := by
  have hl : JVal.undefined.toBoolean = false := rfl
  simp only [ProtectedRoute, useAuth, prop_user, prop_loading, hl, Bool.false_eq_true,
    if_false]
  cases value.user.toBoolean <;> rfl

theorem publicRoute_eq (value : ContextValue) :
    PublicRoute (some value) =
      .ok (if value.user.toBoolean then Element.navigate "/dashboard" else Element.children) := by
  have hl : JVal.undefined.toBoolean = false := rfl
  simp only [PublicRoute, useAuth, prop_user, prop_loading, hl, Bool.false_eq_true,
    if_false]
  cases value.user.toBoolean <;> rfl

/-! ## The context value and the route guards: claims -/

/-- C16: `isAuthenticated` is a function of the in-memory user alone, its
truthiness: the context value built from a state carries the user of that state
and a flag equal to the truthiness of that user, so the flag is true exactly when
the user is truthy; it is never true for `null` (or `undefined`) and always true
for a profile object; and the context value reports it false before
initialization, after `logout`, and after a failed `login` from a state whose user
is `null`. -/
theorem isAuthenticated_follows_user (env : Env) (stringify : JVal → Option String)
    (fuel : Nat) (w : World) (s : AuthState) :
    (∀ s₁ s₂ : AuthState, s₁.user = s₂.user →
      AuthProvider.isAuthenticated s₁ = AuthProvider.isAuthenticated s₂) ∧
    (AuthProvider.value s).isAuthenticated = (AuthProvider.value s).user.toBoolean ∧
    (AuthProvider.value s).user = s.user ∧
    (AuthProvider.value s).isAuthenticated = s.user.toBoolean ∧
    AuthProvider.isAuthenticated s = s.user.toBoolean ∧
    ((AuthProvider.value s).isAuthenticated = true ↔ s.user.toBoolean = true) ∧
    (AuthProvider.value s).isLoading = s.isLoading ∧
    (AuthProvider.isAuthenticated s = true → s.user ≠ JVal.null ∧ s.user ≠ JVal.undefined) ∧
    (∀ fields, s.user = JVal.obj fields →
      AuthProvider.isAuthenticated s = true ∧ (AuthProvider.value s).isAuthenticated = true) ∧
    (s.user = JVal.null → (AuthProvider.value s).isAuthenticated = false) ∧
    AuthProvider.isAuthenticated AuthState.initial = false ∧
    (AuthProvider.value AuthState.initial).isAuthenticated = false ∧
    (∀ w' s' r, AuthProvider.logout env stringify fuel w s = some ((w', s'), r) →
      AuthProvider.isAuthenticated s' = false ∧
      (AuthProvider.value s').isAuthenticated = false ∧
      (AuthProvider.value s').user = JVal.null) ∧
    (∀ email password w' s' err, s.user = JVal.null →
      AuthProvider.login env stringify fuel w s email password
        = some ((w', s'), .error err) →
      AuthProvider.isAuthenticated s' = false ∧
      (AuthProvider.value s').isAuthenticated = false ∧
      (AuthProvider.value s').user = JVal.null) := by
  refine ⟨?_, rfl, rfl, rfl, rfl, Iff.rfl, rfl, ?_, ?_, ?_, rfl, rfl, ?_, ?_⟩
  · intro s₁ s₂ h
    simp only [AuthProvider.isAuthenticated, h]
  · intro h
    constructor
    · intro hnull
      simp [AuthProvider.isAuthenticated, hnull, JVal.toBoolean] at h
    · intro hundef
      simp [AuthProvider.isAuthenticated, hundef, JVal.toBoolean] at h
  · intro fields h
    simp [AuthProvider.value, AuthProvider.isAuthenticated, h, JVal.toBoolean]
  · intro h
    simp [AuthProvider.value, AuthProvider.isAuthenticated, h, JVal.toBoolean]
  · intro w' s' r h
    have hnull := logout_resets_user env stringify fuel w s h
    simp [AuthProvider.value, AuthProvider.isAuthenticated, hnull, JVal.toBoolean]
  · intro email password w' s' err hnull h
    rw [login_error_keeps_state env stringify fuel w s email password h]
    simp [AuthProvider.value, AuthProvider.isAuthenticated, hnull, JVal.toBoolean]

theorem isAuthenticated_follows_user_witness :
    (AuthProvider.isAuthenticated { user := JVal.obj [], isLoading := false } = true ∧
      (AuthProvider.value { user := JVal.obj [], isLoading := false }).isAuthenticated
        = true) ∧
    (AuthProvider.isAuthenticated { user := JVal.null, isLoading := true } = false ∧
      (AuthProvider.value { user := JVal.null, isLoading := true }).isAuthenticated = false ∧
      (AuthProvider.value { user := JVal.null, isLoading := true }).user = JVal.null) ∧
    (AuthProvider.value { user := JVal.str "", isLoading := false }).isAuthenticated
      = (JVal.str "").toBoolean :=
  ⟨(isAuthenticated_follows_user brokenEnv sampleStringify 2 sampleWorld
      { user := JVal.obj [], isLoading := false }).2.2.2.2.2.2.2.2.1 [] rfl,
    (isAuthenticated_follows_user brokenEnv sampleStringify 2 sampleWorld
      AuthState.initial).2.2.2.2.2.2.2.2.2.2.2.2.1
      { storage := [], location := "/dashboard",
        log := [NetCall.request (outgoing brokenEnv sampleWorld
          (post sampleStringify "/users/logout/" (.obj [("refresh_token", .str "r1")])))] }
      { user := JVal.null, isLoading := true } (.ok ()) rfl,
    (isAuthenticated_follows_user brokenEnv sampleStringify 2 sampleWorld
      { user := JVal.str "", isLoading := false }).2.2.2.1⟩

/-- C17: for each of `register`, `verifyCode`, `sendVerificationCode` and
`changePassword`: when the API call behind it rejects with an error, the operation
of the context rejects with that same error, and when the call resolves the
operation resolves; the React state is untouched either way. -/
theorem pass_throughs_surface_errors (env : Env) (stringify : JVal → Option String)
    (fuel : Nat) (w : World) (s : AuthState) :
    (∀ userData w' e,
      api env fuel w (post stringify "/users/register/" userData) = some (w', .rejected e) →
      AuthProvider.register env stringify fuel w s userData
        = some ((w', s), .error (.axios e))) ∧
    (∀ userData w' resp,
      api env fuel w (post stringify "/users/register/" userData) = some (w', .resolved resp) →
      AuthProvider.register env stringify fuel w s userData = some ((w', s), .ok ())) ∧
    (∀ data w' e,
      api env fuel w (post stringify "/users/verify-code/" data) = some (w', .rejected e) →
      AuthProvider.verifyCode env stringify fuel w s data
        = some ((w', s), .error (.axios e))) ∧
    (∀ data w' resp,
      api env fuel w (post stringify "/users/verify-code/" data) = some (w', .resolved resp) →
      AuthProvider.verifyCode env stringify fuel w s data = some ((w', s), .ok ())) ∧
    (∀ data w' e,
      api env fuel w (post stringify "/users/send-verification-code/" data)
        = some (w', .rejected e) →
      AuthProvider.sendVerificationCode env stringify fuel w s data
        = some ((w', s), .error (.axios e))) ∧
    (∀ data w' resp,
      api env fuel w (post stringify "/users/send-verification-code/" data)
        = some (w', .resolved resp) →
      AuthProvider.sendVerificationCode env stringify fuel w s data
        = some ((w', s), .ok ())) ∧
    (∀ oldPassword newPassword w' e,
      api env fuel w (post stringify "/users/change-password/"
        (.obj [("old_password", oldPassword), ("new_password", newPassword)]))
          = some (w', .rejected e) →
      AuthProvider.changePassword env stringify fuel w s oldPassword newPassword
        = some ((w', s), .error (.axios e))) ∧
    (∀ oldPassword newPassword w' resp,
      api env fuel w (post stringify "/users/change-password/"
        (.obj [("old_password", oldPassword), ("new_password", newPassword)]))
          = some (w', .resolved resp) →
      AuthProvider.changePassword env stringify fuel w s oldPassword newPassword
        = some ((w', s), .ok ())) := by
  refine ⟨?_, ?_, ?_, ?_, ?_, ?_, ?_, ?_⟩
  · intro userData w' e h
    exact awaitOrThrow_rejected env stringify fuel w s _ _ h
  · intro userData w' resp h
    exact awaitOrThrow_resolved env stringify fuel w s _ _ h
  · intro data w' e h
    exact awaitOrThrow_rejected env stringify fuel w s _ _ h
  · intro data w' resp h
    exact awaitOrThrow_resolved env stringify fuel w s _ _ h
  · intro data w' e h
    exact awaitOrThrow_rejected env stringify fuel w s _ _ h
  · intro data w' resp h
    exact awaitOrThrow_resolved env stringify fuel w s _ _ h
  · intro oldPassword newPassword w' e h
    exact awaitOrThrow_rejected env stringify fuel w s _ _ h
  · intro oldPassword newPassword w' resp h
    exact awaitOrThrow_resolved env stringify fuel w s _ _ h

theorem pass_throughs_surface_errors_witness :
    AuthProvider.register brokenEnv sampleStringify 1 loggedOutWorld AuthState.initial
        (.obj [("email", .str "a@b.com")])
      = some (({ storage := [], location := "/login",
                 log := [NetCall.request (outgoing brokenEnv loggedOutWorld
                   (post sampleStringify "/users/register/"
                     (.obj [("email", .str "a@b.com")])))] }, AuthState.initial),
          .error (.axios ⟨outgoing brokenEnv loggedOutWorld
            (post sampleStringify "/users/register/" (.obj [("email", .str "a@b.com")])),
            some ⟨500, .null⟩⟩)) ∧
    AuthProvider.changePassword acceptingEnv sampleStringify 1 sampleWorld AuthState.initial
        (.str "secret1") (.str "secret2")
      = some (({ storage := sampleWorld.storage, location := "/dashboard",
                 log := [NetCall.request (outgoing acceptingEnv sampleWorld
                   (post sampleStringify "/users/change-password/"
                     (.obj [("old_password", .str "secret1"),
                       ("new_password", .str "secret2")])))] }, AuthState.initial),
          .ok ()) :=
  ⟨(pass_throughs_surface_errors brokenEnv sampleStringify 1 loggedOutWorld
      AuthState.initial).1 (.obj [("email", .str "a@b.com")]) _ _ rfl,
    (pass_throughs_surface_errors acceptingEnv sampleStringify 1 sampleWorld
      AuthState.initial).2.2.2.2.2.2.2 (.str "secret1") (.str "secret2") _
      ⟨200, .obj [("access_token", .str "a9"), ("refresh_token", .str "r9"),
        ("user", .obj [])]⟩ rfl⟩

/-- C18: `useAuth` fails exactly when no provider supplies a value: for an
undefined context value it throws an error with the message
`useAuth must be used within an AuthProvider`, and otherwise it returns the
provided value unchanged. -/
theorem useAuth_requires_provider :
    useAuth none = .error "useAuth must be used within an AuthProvider" ∧
    (∀ value, useAuth (some value) = .ok value) ∧
    (∀ context, (∃ message, useAuth context = .error message) ↔ context = none) := by
  refine ⟨rfl, fun _ => rfl, ?_⟩
  intro context
  cases context with
  | none => exact ⟨fun _ => rfl, fun _ => ⟨_, rfl⟩⟩
  | some value =>
    constructor
    · rintro ⟨message, h⟩
      simp [useAuth] at h
    · intro h
      simp at h

/-- C19: for every context value whose initial load has completed,
`ProtectedRoute` renders its children exactly when `user` is truthy and otherwise
renders a redirect to `/login`; for a `null` user it renders the redirect. -/
theorem protected_route_gates_on_user (value : ContextValue)
    (_hloaded : value.isLoading = false) :
    (ProtectedRoute (some value) = .ok Element.children ↔ value.user.toBoolean = true) ∧
    (value.user.toBoolean = false →
      ProtectedRoute (some value) = .ok (Element.navigate "/login")) ∧
    (value.user = JVal.null →
      ProtectedRoute (some value) = .ok (Element.navigate "/login")) := by
  rw [protectedRoute_eq]
  refine ⟨?_, ?_, ?_⟩
  · cases value.user.toBoolean <;> simp
  · intro h
    simp [h]
  · intro h
    simp [h, JVal.toBoolean]

theorem protected_route_gates_on_user_witness :
    (ProtectedRoute (some ⟨JVal.obj [], true, false⟩) = .ok Element.children ↔
      (JVal.obj []).toBoolean = true) ∧
    ((JVal.obj []).toBoolean = false →
      ProtectedRoute (some ⟨JVal.obj [], true, false⟩) = .ok (Element.navigate "/login")) ∧
    (JVal.obj [] = JVal.null →
      ProtectedRoute (some ⟨JVal.obj [], true, false⟩) = .ok (Element.navigate "/login")) :=
  protected_route_gates_on_user ⟨JVal.obj [], true, false⟩ rfl

/-- C20: for every context value whose initial load has completed, `PublicRoute`
renders a redirect to `/dashboard` exactly when `user` is truthy and renders its
children otherwise. -/
theorem public_route_redirects_logged_in (value : ContextValue)
    (_hloaded : value.isLoading = false) :
    (PublicRoute (some value) = .ok (Element.navigate "/dashboard") ↔
      value.user.toBoolean = true) ∧
    (value.user.toBoolean = false → PublicRoute (some value) = .ok Element.children) := by
  rw [publicRoute_eq]
  refine ⟨?_, ?_⟩
  · cases value.user.toBoolean <;> simp
  · intro h
    simp [h]

theorem public_route_redirects_logged_in_witness :
    (PublicRoute (some ⟨JVal.null, false, false⟩) = .ok (Element.navigate "/dashboard") ↔
      JVal.null.toBoolean = true) ∧
    (JVal.null.toBoolean = false →
      PublicRoute (some ⟨JVal.null, false, false⟩) = .ok Element.children) :=
  public_route_redirects_logged_in ⟨JVal.null, false, false⟩ rfl

/-! ## Further behaviour of the guards and the wrapper: lemmas -/

/-- A request whose reply is not a 401 is dispatched once and settles as the
adapter settles it; storage and location stay as they were. -/
theorem api_not_401 (env : Env) (fuel : Nat) (w : World) (config : Config)
    (reply : Option Response)
    (hreply : env.backend w.log (NetCall.request (outgoing env w config)) = reply)
    (hnot : ∀ resp, reply = some resp → resp.status ≠ 401) :
    api env (fuel + 1) w config =
      some ({ storage := w.storage
              location := w.location
              log := w.log ++ [NetCall.request (outgoing env w config)] },
        settle (outgoing env w config) reply) := by
  rw [api_succ, hreply]
  cases hs : settle (outgoing env w config) reply with
  | resolved r => rfl
  | rejected e =>
    simp only
    have he := settle_rejected hs
    apply responseError_passthrough
    rintro ⟨h1, -⟩
    rw [he] at h1
    cases reply with
    | none => simp at h1
    | some resp =>
      simp only [Option.map_some', Option.some.injEq] at h1
      exact hnot resp rfl h1

/-! ## Further behaviour of the guards and the wrapper: claims -/

/-- C21 does not hold of the code: while the initial load is in progress
(`isLoading` is `true` in the value of `AuthProvider`), `ProtectedRoute` renders
the redirect to `/login` and `PublicRoute` renders its children; neither guard
renders the spinner for any context value. -/
theorem guards_never_render_spinner :
    (AuthProvider.value AuthState.initial).isLoading = true ∧
    ProtectedRoute (some (AuthProvider.value AuthState.initial))
      = .ok (Element.navigate "/login") ∧
    PublicRoute (some (AuthProvider.value AuthState.initial)) = .ok Element.children ∧
    (∀ value, ProtectedRoute (some value) ≠ .ok Element.spinner) ∧
    (∀ value, PublicRoute (some value) ≠ .ok Element.spinner) := by
  refine ⟨rfl, rfl, rfl, ?_, ?_⟩
  · intro value
    rw [protectedRoute_eq]
    cases value.user.toBoolean <;> simp
  · intro value
    rw [publicRoute_eq]
    cases value.user.toBoolean <;> simp

/-- C22: a 401 triggers a refresh that succeeds, and the one retry then fails (no
response, or a status outside 2xx). The caller gets the rejection of the retry
(the error of the flagged request, with the reply the retry received); storage
keeps the new access token next to the old refresh token and user; the location
is unchanged. -/
theorem retry_failure_keeps_session (env : Env) (fuel : Nat) (w : World) (config : Config)
    (resp rr : Response) (r : String) (access : JVal)
    (hretry : config._retry = false)
    (hfirst : env.backend w.log (NetCall.request (outgoing env w config)) = some resp)
    (h401 : resp.status = 401)
    (hr : w.storage.getItem "refresh_token" = some r) (hne : r ≠ "")
    (hreply : env.backend (w.log ++ [NetCall.request (outgoing env w config)])
      (NetCall.refresh (env.API_BASE_URL ++ "/token/refresh/") r) = some rr)
    (hvalid : validateStatus rr.status = true)
    (haccess : rr.data.getProp "access" = some access)
    (hfail : ∀ c resp', env.backend
        (w.log ++ [NetCall.request (outgoing env w config),
          NetCall.refresh (env.API_BASE_URL ++ "/token/refresh/") r])
        (NetCall.request c) = some resp' → validateStatus resp'.status = false) :
    ∃ w' e, api env (fuel + 2) w config = some (w', .rejected e) ∧
      e.config._retry = true ∧ e.config.url = config.url ∧
      e.response = env.backend
        (w.log ++ [NetCall.request (outgoing env w config),
          NetCall.refresh (env.API_BASE_URL ++ "/token/refresh/") r])
        (NetCall.request e.config) ∧
      w'.log = w.log ++ [NetCall.request (outgoing env w config),
        NetCall.refresh (env.API_BASE_URL ++ "/token/refresh/") r,
        NetCall.request e.config] ∧
      w'.storage.getItem "access_token" = some access.toJsString ∧
      w'.storage.getItem "refresh_token" = some r ∧
      w'.storage.getItem "user" = w.storage.getItem "user" ∧
      w'.location = w.location := by
  obtain ⟨again, hflag, hurl, -, -, -, hrun⟩ :=
    api_refresh_ok env fuel w config hretry hfirst h401 hr hne hreply hvalid haccess
  have hs : settle again (env.backend
      (w.log ++ [NetCall.request (outgoing env w config),
        NetCall.refresh (env.API_BASE_URL ++ "/token/refresh/") r])
      (NetCall.request again))
      = .rejected ⟨again, env.backend
        (w.log ++ [NetCall.request (outgoing env w config),
          NetCall.refresh (env.API_BASE_URL ++ "/token/refresh/") r])
        (NetCall.request again)⟩ := by
    cases hb : env.backend
        (w.log ++ [NetCall.request (outgoing env w config),
          NetCall.refresh (env.API_BASE_URL ++ "/token/refresh/") r])
        (NetCall.request again) with
    | none => rfl
    | some resp' => exact settle_of_invalid _ (hfail again resp' hb)
  rw [hs] at hrun
  refine ⟨_, _, hrun, hflag, hurl, rfl, rfl, ?_, ?_, ?_, rfl⟩
  · exact Dict.getItem_setItem_self _ _ _
  · exact (Dict.getItem_setItem_ne _ _ (by decide)).trans hr
  · exact Dict.getItem_setItem_ne _ _ (by decide)

theorem retry_failure_keeps_session_witness :
    ∃ w' e, api rejectingEnv (0 + 2) sampleWorld sampleConfig = some (w', .rejected e) ∧
      e.config._retry = true ∧ e.config.url = sampleConfig.url ∧
      e.response = rejectingEnv.backend
        (sampleWorld.log ++ [NetCall.request (outgoing rejectingEnv sampleWorld sampleConfig),
          NetCall.refresh (rejectingEnv.API_BASE_URL ++ "/token/refresh/") "r1"])
        (NetCall.request e.config) ∧
      w'.log = sampleWorld.log ++
        [NetCall.request (outgoing rejectingEnv sampleWorld sampleConfig),
        NetCall.refresh (rejectingEnv.API_BASE_URL ++ "/token/refresh/") "r1",
        NetCall.request e.config] ∧
      w'.storage.getItem "access_token" = some (JVal.str "a2").toJsString ∧
      w'.storage.getItem "refresh_token" = some "r1" ∧
      w'.storage.getItem "user" = sampleWorld.storage.getItem "user" ∧
      w'.location = sampleWorld.location :=
  retry_failure_keeps_session rejectingEnv 0 sampleWorld sampleConfig ⟨401, .null⟩
    ⟨200, .obj [("access", .str "a2")]⟩ "r1" (.str "a2") rfl rfl rfl (by decide) (by decide)
    rfl (by decide) rfl
    (fun c resp' hresp => by
      have h401 : resp' = ⟨401, .null⟩ := (Option.some.inj hresp).symm
      rw [h401]; decide)

/-- C23: when no access token is stored (the slot is absent or empty) the request
interceptor returns the configuration it was given; and for every storage it
leaves url, method, base URL, timeout, body and retried flag as they were, and
every header other than `Authorization` as it was. -/
theorem request_phase_frame (storage : Dict) (config : Config) :
    (truthy (storage.getItem "access_token") = false →
      requestInterceptor storage config = config) ∧
    ((requestInterceptor storage config).url = config.url ∧
      (requestInterceptor storage config).method = config.method ∧
      (requestInterceptor storage config).baseURL = config.baseURL ∧
      (requestInterceptor storage config).timeout = config.timeout ∧
      (requestInterceptor storage config).data = config.data ∧
      (requestInterceptor storage config)._retry = config._retry) ∧
    (config.headers = none → (requestInterceptor storage config).headers = none) ∧
    (∀ h, config.headers = some h →
      ∃ h', (requestInterceptor storage config).headers = some h' ∧
        ∀ k, k ≠ "Authorization" → h'.getItem k = h.getItem k) := by
  refine ⟨?_, ?_, ?_, ?_⟩
  · intro ht
    unfold requestInterceptor
    simp only [ht]
    split <;> rfl
  · unfold requestInterceptor
    simp only
    split
    · split <;> exact ⟨rfl, rfl, rfl, rfl, rfl, rfl⟩
    · exact ⟨rfl, rfl, rfl, rfl, rfl, rfl⟩
  · intro hnone
    unfold requestInterceptor
    simp only [hnone]
  · intro h hh
    unfold requestInterceptor
    simp only [hh]
    split
    · exact ⟨_, rfl, fun k hk => Dict.getItem_setItem_ne _ _ hk⟩
    · exact ⟨h, hh, fun _ _ => rfl⟩

theorem request_phase_frame_witness :
    requestInterceptor [("access_token", "")] (mergeConfig rejectingEnv sampleConfig)
      = mergeConfig rejectingEnv sampleConfig ∧
    requestInterceptor [] sampleConfig = sampleConfig ∧
    ∃ h', (requestInterceptor sampleWorld.storage
        (mergeConfig rejectingEnv sampleConfig)).headers = some h' ∧
      ∀ k, k ≠ "Authorization" →
        h'.getItem k = Dict.getItem [("Content-Type", "application/json")] k :=
  ⟨(request_phase_frame [("access_token", "")] (mergeConfig rejectingEnv sampleConfig)).1
      (by decide),
    (request_phase_frame [] sampleConfig).1 (by decide),
    (request_phase_frame sampleWorld.storage (mergeConfig rejectingEnv sampleConfig)).2.2.2
      [("Content-Type", "application/json")] rfl⟩

/-- C24: `authAPI.logout` sends POST `/users/logout/` with the body
`refresh_token: r` exactly when a non-empty refresh token `r` is stored: then that
request is the first call it adds to the log; when none is stored the log is left
as it was. In both cases the three slots are removed and the method returns. -/
theorem logout_call_needs_refresh_token (env : Env) (stringify : JVal → Option String)
    (fuel : Nat) (w : World) :
    (∀ r, w.storage.getItem "refresh_token" = some r → r ≠ "" →
      ∃ w' sent rest, authAPI.logout env stringify (fuel + 2) w = some (w', .ok ()) ∧
        w'.log = w.log ++ NetCall.request sent :: rest ∧
        sent.url = "/users/logout/" ∧ sent.method = "post" ∧
        sent.data = stringify (.obj [("refresh_token", .str r)]) ∧
        w'.storage.getItem "access_token" = none ∧
        w'.storage.getItem "refresh_token" = none ∧
        w'.storage.getItem "user" = none) ∧
    (truthy (w.storage.getItem "refresh_token") = false →
      ∃ w', authAPI.logout env stringify fuel w = some (w', .ok ()) ∧
        w'.log = w.log ∧ w'.location = w.location ∧
        w'.storage.getItem "access_token" = none ∧
        w'.storage.getItem "refresh_token" = none ∧
        w'.storage.getItem "user" = none) := by
  constructor
  · intro r hr hne
    obtain ⟨w1, out, rest, hrun, hlog, -⟩ := api_trace env fuel w
      (post stringify "/users/logout/" (.obj [("refresh_token", .str r)]))
    obtain ⟨hurl, hmethod, hdata⟩ := outgoing_same_request env w
      (post stringify "/users/logout/" (.obj [("refresh_token", .str r)]))
    refine ⟨{ w1 with storage := removeSession w1.storage }, _, rest, ?_, hlog, hurl, hmethod,
      hdata, removeSession_cleared _⟩
    simp only [authAPI.logout, hr, truthy_some hne, if_true, Option.getD_some, hrun]
  · intro hnone
    refine ⟨{ w with storage := removeSession w.storage }, ?_, rfl, rfl,
      removeSession_cleared _⟩
    simp only [authAPI.logout, hnone, Bool.false_eq_true, if_false]

theorem logout_call_needs_refresh_token_witness :
    (∃ w' sent rest,
      authAPI.logout brokenEnv sampleStringify (0 + 2) sampleWorld = some (w', .ok ()) ∧
        w'.log = sampleWorld.log ++ NetCall.request sent :: rest ∧
        sent.url = "/users/logout/" ∧ sent.method = "post" ∧
        sent.data = sampleStringify (.obj [("refresh_token", .str "r1")]) ∧
        w'.storage.getItem "access_token" = none ∧
        w'.storage.getItem "refresh_token" = none ∧
        w'.storage.getItem "user" = none) ∧
    (∃ w', authAPI.logout brokenEnv sampleStringify 0 noRefreshWorld = some (w', .ok ()) ∧
        w'.log = noRefreshWorld.log ∧ w'.location = noRefreshWorld.location ∧
        w'.storage.getItem "access_token" = none ∧
        w'.storage.getItem "refresh_token" = none ∧
        w'.storage.getItem "user" = none) :=
  ⟨(logout_call_needs_refresh_token brokenEnv sampleStringify 0 sampleWorld).1 "r1"
      (by decide) (by decide),
    (logout_call_needs_refresh_token brokenEnv sampleStringify 0 noRefreshWorld).2
      (by decide)⟩

/-- C25: for every input and every reply to POST `/users/register/` that is not a
401 (a success, another error status, or no response), `register` of the context
leaves the in-memory user, the three slots and the location as they were, and it
resolves exactly when the reply is a 2xx; so `isAuthenticated` is what it was. -/
theorem register_creates_no_session (env : Env) (stringify : JVal → Option String)
    (fuel : Nat) (w : World) (s : AuthState) (userData : JVal) (reply : Option Response)
    (hreply : env.backend w.log (NetCall.request
      (outgoing env w (post stringify "/users/register/" userData))) = reply)
    (hnot : ∀ resp, reply = some resp → resp.status ≠ 401) :
    ∃ w' s' r, AuthProvider.register env stringify (fuel + 1) w s userData
        = some ((w', s'), r) ∧
      s' = s ∧ w'.storage = w.storage ∧ w'.location = w.location ∧
      AuthProvider.isAuthenticated s' = AuthProvider.isAuthenticated s ∧
      (r = .ok () ↔ ∃ resp, reply = some resp ∧ validateStatus resp.status = true) := by
  have hrun := api_not_401 env fuel w (post stringify "/users/register/" userData) reply
    hreply hnot
  cases reply with
  | none =>
    have hs : settle (outgoing env w (post stringify "/users/register/" userData)) none
        = .rejected ⟨_, none⟩ := rfl
    rw [hs] at hrun
    refine ⟨_, s, _, awaitOrThrow_rejected env stringify (fuel + 1) w s _ _ hrun,
      rfl, rfl, rfl, rfl, ?_⟩
    simp
  | some resp =>
    by_cases hv : validateStatus resp.status = true
    · have hs : settle (outgoing env w (post stringify "/users/register/" userData))
          (some resp) = .resolved resp := by
        simp [settle, hv]
      rw [hs] at hrun
      refine ⟨_, s, _, awaitOrThrow_resolved env stringify (fuel + 1) w s _ _ hrun,
        rfl, rfl, rfl, rfl, ?_⟩
      simp [hv]
    · have hv' : validateStatus resp.status = false := by simpa using hv
      rw [settle_of_invalid _ hv'] at hrun
      refine ⟨_, s, _, awaitOrThrow_rejected env stringify (fuel + 1) w s _ _ hrun,
        rfl, rfl, rfl, rfl, ?_⟩
      simp [hv']

theorem register_creates_no_session_witness :
    ∃ w' s' r, AuthProvider.register acceptingEnv sampleStringify (0 + 1) loggedOutWorld
        AuthState.initial (.obj [("email", .str "a@b.com")]) = some ((w', s'), r) ∧
      s' = AuthState.initial ∧ w'.storage = loggedOutWorld.storage ∧
      w'.location = loggedOutWorld.location ∧
      AuthProvider.isAuthenticated s' = AuthProvider.isAuthenticated AuthState.initial ∧
      (r = .ok () ↔ ∃ resp,
        some (⟨200, .obj [("access_token", .str "a9"), ("refresh_token", .str "r9"),
          ("user", .obj [])]⟩ : Response) = some resp ∧
        validateStatus resp.status = true) :=
  register_creates_no_session acceptingEnv sampleStringify 0 loggedOutWorld
    AuthState.initial (.obj [("email", .str "a@b.com")])
    (some ⟨200, .obj [("access_token", .str "a9"), ("refresh_token", .str "r9"),
      ("user", .obj [])]⟩) rfl
    (fun resp hresp => by
      have h200 : resp = ⟨200, .obj [("access_token", .str "a9"),
          ("refresh_token", .str "r9"), ("user", .obj [])]⟩ := (Option.some.inj hresp).symm
      rw [h200]; decide)

/-! ## Form validation: lemmas -/

/-- The matcher finds a prefix of the input exactly when some prefix splits into
one piece for each term. -/
theorem matchPrefix_iff (pattern : List Term) (s : List Char) :
    matchPrefix pattern s = true ↔ ∃ m rest, s = m ++ rest ∧ Matches pattern m := by
  induction s generalizing pattern with
  | nil =>
    cases pattern with
    | nil => exact ⟨fun _ => ⟨[], [], rfl, rfl⟩, fun _ => rfl⟩
    | cons t ts =>
      cases t with
      | one cls =>
        constructor
        · intro h; simp [matchPrefix] at h
        · rintro ⟨m, rest, hs, c, m', hm, -, -⟩
          rw [hm] at hs; simp at hs
      | many1 cls =>
        constructor
        · intro h; simp [matchPrefix] at h
        · rintro ⟨m, rest, hs, a, m', hm, ha, -, -⟩
          rw [hm] at hs
          have : a = [] := by
            cases a with
            | nil => rfl
            | cons x xs => simp at hs
          exact absurd this ha
  | cons c cs ih =>
    cases pattern with
    | nil => exact ⟨fun _ => ⟨[], c :: cs, rfl, rfl⟩, fun _ => rfl⟩
    | cons t ts =>
      cases t with
      | one cls =>
        simp only [matchPrefix, Bool.and_eq_true, ih ts]
        constructor
        · rintro ⟨hc, m, rest, hs, hm⟩
          exact ⟨c :: m, rest, by rw [hs]; rfl, c, m, rfl, hc, hm⟩
        · rintro ⟨m, rest, hs, c', m', hm, hc, hm'⟩
          rw [hm] at hs
          simp only [List.cons_append, List.cons.injEq] at hs
          obtain ⟨hcc, hcs⟩ := hs
          exact ⟨hcc ▸ hc, m', rest, hcs, hm'⟩
      | many1 cls =>
        simp only [matchPrefix, Bool.and_eq_true, Bool.or_eq_true, ih ts,
          ih (Term.many1 cls :: ts)]
        constructor
        · rintro ⟨hc, ⟨m, rest, hs, hm⟩ | ⟨m, rest, hs, a, m', hm, ha, hall, hm'⟩⟩
          · refine ⟨c :: m, rest, by rw [hs]; rfl, [c], m, rfl, by simp, ?_, hm⟩
            intro x hx
            simp only [List.mem_singleton] at hx
            rw [hx]; exact hc
          · refine ⟨c :: m, rest, by rw [hs]; rfl, c :: a, m', by rw [hm]; rfl, by simp, ?_,
              hm'⟩
            intro x hx
            rcases List.mem_cons.mp hx with hx | hx
            · rw [hx]; exact hc
            · exact hall x hx
        · rintro ⟨m, rest, hs, a, m', hm, ha, hall, hm'⟩
          cases a with
          | nil => exact absurd rfl ha
          | cons x xs =>
            rw [hm] at hs
            simp only [List.cons_append, List.cons.injEq] at hs
            obtain ⟨hcx, hcs⟩ := hs
            refine ⟨hcx ▸ hall x (List.mem_cons_self _ _), ?_⟩
            cases xs with
            | nil => exact Or.inl ⟨m', rest, by simpa using hcs, hm'⟩
            | cons y ys =>
              exact Or.inr ⟨(y :: ys) ++ m', rest, hcs, y :: ys, m', rfl, by simp,
                fun z hz => hall z (List.mem_cons_of_mem _ hz), hm'⟩

theorem regexTest_iff (pattern : List Term) (s : String) :
    regexTest pattern s = true ↔
      ∃ before m after, s.toList = before ++ m ++ after ∧ Matches pattern m := by
  simp only [regexTest, List.any_eq_true, List.mem_tails, matchPrefix_iff]
  constructor
  · rintro ⟨t, ⟨before, hbefore⟩, m, after, ht, hm⟩
    exact ⟨before, m, after, by rw [← hbefore, ht, List.append_assoc], hm⟩
  · rintro ⟨before, m, after, hs, hm⟩
    exact ⟨m ++ after, ⟨before, by rw [hs, List.append_assoc]⟩, m, after, rfl, hm⟩

theorem matches_emailPattern (m : List Char) :
    Matches emailPattern m ↔
      ∃ a b c, m = a ++ '@' :: (b ++ '.' :: c) ∧ a ≠ [] ∧ b ≠ [] ∧ c ≠ [] ∧
        (∀ x ∈ a, isNonWhiteSpace x = true) ∧ (∀ x ∈ b, isNonWhiteSpace x = true) ∧
        (∀ x ∈ c, isNonWhiteSpace x = true) := by
  simp only [emailPattern, Matches, decide_eq_true_eq]
  constructor
  · rintro ⟨a, m₁, hm, ha, halla, c₁, m₂, hm₁, hc₁, b, m₃, hm₂, hb, hallb, c₂, m₄, hm₃, hc₂,
      c, m₅, hm₄, hc, hallc, hm₅⟩
    refine ⟨a, b, c, ?_, ha, hb, hc, halla, hallb, hallc⟩
    rw [hm, hm₁, hc₁, hm₂, hm₃, hc₂, hm₄, hm₅, List.append_nil]
  · rintro ⟨a, b, c, hm, ha, hb, hc, halla, hallb, hallc⟩
    exact ⟨a, '@' :: (b ++ '.' :: c), hm, ha, halla, '@', b ++ '.' :: c, rfl, rfl,
      b, '.' :: c, rfl, hb, hallb, '.', c, rfl, rfl, c, [], (List.append_nil c).symm, hc,
      hallc, rfl⟩

/-- The regular expression of the forms accepts exactly the emails that contain the
shape described in words. -/
theorem regexTest_email_iff (email : String) :
    regexTest emailPattern email = true ↔ EmailShape email := by
  rw [regexTest_iff]
  unfold EmailShape
  constructor
  · rintro ⟨before, m, after, hs, hm⟩
    obtain ⟨a, b, c, hm', rest⟩ := (matches_emailPattern m).mp hm
    exact ⟨before, a, b, c, after, by rw [hs, hm'], rest⟩
  · rintro ⟨before, a, b, c, after, hs, rest⟩
    exact ⟨before, a ++ '@' :: (b ++ '.' :: c), after, hs,
      (matches_emailPattern _).mpr ⟨a, b, c, rfl, rest⟩⟩

theorem setItem_ne_nil (d : Dict) (k v : String) : d.setItem k v ≠ [] := by
  simp [Dict.setItem]

theorem ite_setItem_eq_nil (cond : Prop) [Decidable cond] (d : Dict) (k v : String) :
    (if cond then d.setItem k v else d) = [] ↔ ¬ cond ∧ d = [] := by
  by_cases h : cond
  · simp [h, setItem_ne_nil]
  · simp [h]

theorem checkEmail_eq_nil (errs : Dict) (email : String) :
    checkEmail errs email = [] ↔
      errs = [] ∧ email ≠ "" ∧ regexTest emailPattern email = true := by
  unfold checkEmail
  by_cases he : email = ""
  · simp [he, setItem_ne_nil]
  · by_cases ht : regexTest emailPattern email = true
    · simp [he, ht]
    · simp [he, ht, setItem_ne_nil]

theorem checkPassword_eq_nil (errs : Dict) (password : String) :
    checkPassword errs password = [] ↔
      errs = [] ∧ password ≠ "" ∧ 6 ≤ jsLength password := by
  unfold checkPassword
  by_cases hp : password = ""
  · simp [hp, setItem_ne_nil]
  · by_cases hl : jsLength password < 6
    · simp [hp, hl, setItem_ne_nil]
    · simp [hp, hl, Nat.le_of_not_lt hl]

theorem checkEmail_getItem_email (errs : Dict) (email : String) :
    (checkEmail errs email).getItem "email" =
      if email = "" then some "Email is required"
      else if regexTest emailPattern email = true then errs.getItem "email"
      else some "Invalid email format" := by
  unfold checkEmail
  by_cases he : email = ""
  · simp only [he, if_true]
    exact Dict.getItem_setItem_self _ _ _
  · by_cases ht : regexTest emailPattern email = true
    · simp [he, ht]
    · have hf : regexTest emailPattern email = false := by simpa using ht
      simp only [he, hf, if_false, Bool.not_false, if_true, Bool.false_eq_true]
      exact Dict.getItem_setItem_self _ _ _

theorem checkPassword_getItem_password (errs : Dict) (password : String) :
    (checkPassword errs password).getItem "password" =
      if password = "" then some "Password is required"
      else if jsLength password < 6 then some "Password must be at least 6 characters"
      else errs.getItem "password" := by
  unfold checkPassword
  by_cases hp : password = ""
  · simp only [hp, if_true]
    exact Dict.getItem_setItem_self _ _ _
  · by_cases hl : jsLength password < 6
    · simp only [hp, hl, if_false, if_true]
      exact Dict.getItem_setItem_self _ _ _
    · simp only [hp, hl, if_false]

theorem checkPassword_getItem_ne (errs : Dict) (password : String) {k : String}
    (hk : k ≠ "password") :
    (checkPassword errs password).getItem k = errs.getItem k := by
  unfold checkPassword
  split
  · exact Dict.getItem_setItem_ne _ _ hk
  · split
    · exact Dict.getItem_setItem_ne _ _ hk
    · rfl

theorem checkEmail_getItem_ne (errs : Dict) (email : String) {k : String}
    (hk : k ≠ "email") :
    (checkEmail errs email).getItem k = errs.getItem k := by
  unfold checkEmail
  split
  · exact Dict.getItem_setItem_ne _ _ hk
  · split
    · exact Dict.getItem_setItem_ne _ _ hk
    · rfl

theorem emailShape_ne_empty {email : String} (h : EmailShape email) : email ≠ "" := by
  rintro rfl
  obtain ⟨before, a, b, c, after, hs, -⟩ := h
  have hlen := congrArg List.length hs
  simp at hlen
  omega

theorem jsLength_pos_ne_empty {s : String} (h : 6 ≤ jsLength s) : s ≠ "" := by
  rintro rfl
  have h0 : jsLength "" = 0 := by decide
  rw [h0] at h
  exact absurd h (by decide)

theorem ite_ite_setItem_eq_nil (c₁ c₂ : Prop) [Decidable c₁] [Decidable c₂] (d : Dict)
    (k v₁ v₂ : String) :
    (if c₁ then d.setItem k v₁ else if c₂ then d.setItem k v₂ else d) = [] ↔
      ¬ c₁ ∧ ¬ c₂ ∧ d = [] := by
  by_cases h₁ : c₁
  · simp [h₁, setItem_ne_nil]
  · by_cases h₂ : c₂
    · simp [h₁, h₂, setItem_ne_nil]
    · simp [h₁, h₂]

/-- Trimming leaves nothing exactly when every character is white space. -/
theorem jsTrim_eq_empty_iff (s : String) :
    jsTrim s = "" ↔ ∀ c ∈ s.toList, isWhiteSpace c = true := by
  have hmk : ∀ l : List Char, String.mk l = "" ↔ l = [] := by
    intro l
    constructor
    · intro h
      have := congrArg String.toList h
      simpa using this
    · rintro rfl; rfl
  unfold jsTrim
  rw [hmk, List.reverse_eq_nil_iff, List.dropWhile_eq_nil_iff]
  constructor
  · intro h
    have hnil : s.toList.dropWhile isWhiteSpace = [] := by
      cases hd : s.toList.dropWhile isWhiteSpace with
      | nil => rfl
      | cons x xs =>
        have hx : isWhiteSpace x = true := h x (by rw [hd]; simp)
        have hhead := List.head_dropWhile_not isWhiteSpace s.toList (by rw [hd]; simp)
        simp only [hd, List.head_cons] at hhead
        rw [hx] at hhead
        exact absurd hhead (by decide)
    exact List.dropWhile_eq_nil_iff.mp hnil
  · intro h x hx
    rw [List.dropWhile_eq_nil_iff.mpr h] at hx
    simp at hx

/-! ## Form validation: claims -/

/-- C26: `validateForm` of the login page returns `true` exactly when the email is
non-empty and contains one or more non-white-space characters, `@`, one or more
non-white-space characters, `.`, one or more non-white-space characters, and the
password has length at least 6 (in UTF-16 code units, as `length` counts);
otherwise it records `Email is required`, `Invalid email format`,
`Password is required` or `Password must be at least 6 characters` for the
offending field and nothing for the other. The email `a@b.com` with the password
`secret1` is accepted. -/
theorem login_validation_accepts_wellformed (formData : LoginForm) :
    ((Login.validateForm formData).2 = true ↔
      formData.email ≠ "" ∧ EmailShape formData.email ∧ 6 ≤ jsLength formData.password) ∧
    (formData.email = "" →
      (Login.validateForm formData).1.getItem "email" = some "Email is required") ∧
    (formData.email ≠ "" → ¬ EmailShape formData.email →
      (Login.validateForm formData).1.getItem "email" = some "Invalid email format") ∧
    (EmailShape formData.email → (Login.validateForm formData).1.getItem "email" = none) ∧
    (formData.password = "" →
      (Login.validateForm formData).1.getItem "password" = some "Password is required") ∧
    (formData.password ≠ "" → jsLength formData.password < 6 →
      (Login.validateForm formData).1.getItem "password"
        = some "Password must be at least 6 characters") ∧
    (6 ≤ jsLength formData.password →
      (Login.validateForm formData).1.getItem "password" = none) ∧
    Login.validateForm ⟨"a@b.com", "secret1"⟩ = ([], true) := by
  have hemail : (Login.validateForm formData).1.getItem "email" =
      if formData.email = "" then some "Email is required"
      else if regexTest emailPattern formData.email = true then none
      else some "Invalid email format" := by
    simp only [Login.validateForm]
    rw [checkPassword_getItem_ne _ _ (by decide), checkEmail_getItem_email]
    rfl
  have hpassword : (Login.validateForm formData).1.getItem "password" =
      if formData.password = "" then some "Password is required"
      else if jsLength formData.password < 6 then
        some "Password must be at least 6 characters"
      else none := by
    simp only [Login.validateForm]
    rw [checkPassword_getItem_password, checkEmail_getItem_ne _ _ (by decide)]
    rfl
  refine ⟨?_, ?_, ?_, ?_, ?_, ?_, ?_, by decide⟩
  · simp only [Login.validateForm, beq_iff_eq, List.length_eq_zero, checkPassword_eq_nil,
      checkEmail_eq_nil, regexTest_email_iff, true_and]
    constructor
    · rintro ⟨⟨he, hs⟩, -, hl⟩
      exact ⟨he, hs, hl⟩
    · rintro ⟨he, hs, hl⟩
      exact ⟨⟨he, hs⟩, jsLength_pos_ne_empty hl, hl⟩
  · intro he
    rw [hemail, if_pos he]
  · intro he hs
    rw [hemail, if_neg he, if_neg (fun ht => hs ((regexTest_email_iff _).mp ht))]
  · intro hs
    rw [hemail, if_neg (emailShape_ne_empty hs), if_pos ((regexTest_email_iff _).mpr hs)]
  · intro hp
    rw [hpassword, if_pos hp]
  · intro hp hl
    rw [hpassword, if_neg hp, if_pos hl]
  · intro hl
    rw [hpassword, if_neg (jsLength_pos_ne_empty hl), if_neg (Nat.not_lt.mpr hl)]

theorem login_validation_accepts_wellformed_witness :
    (Login.validateForm ⟨"a@b", "secret1"⟩).1.getItem "email" = some "Invalid email format" ∧
    (Login.validateForm ⟨"a@b.com", "abc"⟩).1.getItem "password"
      = some "Password must be at least 6 characters" ∧
    (Login.validateForm ⟨"a@b.com", "abc"⟩).1.getItem "email" = none :=
  ⟨(login_validation_accepts_wellformed ⟨"a@b", "secret1"⟩).2.2.1 (by decide)
      (fun hs => absurd ((regexTest_email_iff _).mpr hs) (by decide)),
    (login_validation_accepts_wellformed ⟨"a@b.com", "abc"⟩).2.2.2.2.2.1 (by decide)
      (by decide),
    (login_validation_accepts_wellformed ⟨"a@b.com", "abc"⟩).2.2.2.1
      ((regexTest_email_iff _).mp (by decide))⟩

/-- C27: `validateForm` of the registration page returns `true` exactly when name
and surname are not empty after trimming (they hold a character that is not white
space), the email is non-empty and contains the email shape, the phone is
non-empty, the password has length at least 6, and the confirmation is non-empty
and equal to the password. So a form that passes has equal password and
confirmation, and a non-empty confirmation that differs from the password is
reported as `Passwords do not match`. -/
theorem register_validation_accepts_wellformed (formData : RegisterForm) :
    ((Register.validateForm formData).2 = true ↔
      jsTrim formData.name ≠ "" ∧ jsTrim formData.surname ≠ "" ∧
      formData.email ≠ "" ∧ EmailShape formData.email ∧ formData.phone ≠ "" ∧
      6 ≤ jsLength formData.password ∧
      formData.confirmPassword ≠ "" ∧ formData.confirmPassword = formData.password) ∧
    ((Register.validateForm formData).2 = true →
      formData.password = formData.confirmPassword) ∧
    (formData.confirmPassword ≠ "" → formData.password ≠ formData.confirmPassword →
      (Register.validateForm formData).1.getItem "confirmPassword"
        = some "Passwords do not match") ∧
    (jsTrim formData.name ≠ "" ↔ ∃ c ∈ formData.name.toList, isWhiteSpace c = false) ∧
    (jsTrim formData.surname ≠ "" ↔ ∃ c ∈ formData.surname.toList, isWhiteSpace c = false) := by
  have hiff : (Register.validateForm formData).2 = true ↔
      jsTrim formData.name ≠ "" ∧ jsTrim formData.surname ≠ "" ∧
      formData.email ≠ "" ∧ EmailShape formData.email ∧ formData.phone ≠ "" ∧
      6 ≤ jsLength formData.password ∧
      formData.confirmPassword ≠ "" ∧ formData.confirmPassword = formData.password := by
    simp only [Register.validateForm, beq_iff_eq, List.length_eq_zero,
      ite_ite_setItem_eq_nil, checkPassword_eq_nil, ite_setItem_eq_nil, checkEmail_eq_nil,
      regexTest_email_iff, and_true, ne_eq, not_not]
    constructor
    · rintro ⟨hc, heq, ⟨hphone, ⟨hsur, hname⟩, hemail, hshape⟩, -, hlen⟩
      exact ⟨hname, hsur, hemail, hshape, hphone, hlen, hc, heq.symm⟩
    · rintro ⟨hname, hsur, hemail, hshape, hphone, hlen, hc, heq⟩
      exact ⟨hc, heq.symm, ⟨hphone, ⟨hsur, hname⟩, hemail, hshape⟩,
        jsLength_pos_ne_empty hlen, hlen⟩
  have hblank : ∀ s : String, jsTrim s ≠ "" ↔ ∃ c ∈ s.toList, isWhiteSpace c = false := by
    intro s
    rw [ne_eq, jsTrim_eq_empty_iff]
    simp
  refine ⟨hiff, ?_, ?_, hblank _, hblank _⟩
  · intro h
    exact (hiff.mp h).2.2.2.2.2.2.2.symm
  · intro hc hne
    simp only [Register.validateForm, if_neg hc, if_pos hne]
    exact Dict.getItem_setItem_self _ _ _

theorem register_validation_accepts_wellformed_witness :
    (Register.validateForm ⟨"Ali", "Valiyev", "a@b.com", "+998901234567", "secret1",
      "secret2"⟩).1.getItem "confirmPassword" = some "Passwords do not match" :=
  (register_validation_accepts_wellformed ⟨"Ali", "Valiyev", "a@b.com", "+998901234567",
    "secret1", "secret2"⟩).2.2.1 (by decide) (by decide)

/-! ## The orders list: lemmas -/

theorem includes_iff (haystack needle : String) :
    includes haystack needle = true ↔ needle.toList <:+: haystack.toList := by
  simp only [includes, List.any_eq_true, List.mem_tails, List.isPrefixOf_iff_prefix]
  rw [List.infix_iff_prefix_suffix]
  constructor
  · rintro ⟨t, ht, hp⟩
    exact ⟨t, hp, ht⟩
  · rintro ⟨t, hp, ht⟩
    exact ⟨t, ht, hp⟩

theorem fieldIncludes_iff (toLowerCase : String → String) (field : Option String)
    (searchTerm : String) :
    fieldIncludes toLowerCase field searchTerm = some true ↔
      ∃ text, field = some text ∧
        (toLowerCase searchTerm).toList <:+: (toLowerCase text).toList := by
  cases field with
  | none => simp [fieldIncludes]
  | some v => simp [fieldIncludes, includes_iff]

theorem jsOr_iff (a b : Option Bool) :
    jsOr a b = some true ↔ a = some true ∨ b = some true := by
  unfold jsOr
  by_cases h : a = some true
  · simp [h]
  · simp [h]

theorem jsAnd_iff (a : Option Bool) (m : Bool) :
    jsAnd a (some m) = some true ↔ a = some true ∧ m = true := by
  unfold jsAnd
  by_cases h : a = some true
  · simp [h]
  · simp [h]

theorem keepsOrder_iff (toLowerCase : String → String) (searchTerm statusFilter : String)
    (order : Order) :
    keepsOrder toLowerCase searchTerm statusFilter order = true ↔
      (∃ text, (order.order_number = some text ∨ order.description = some text ∨
          order.destination = some text) ∧
        (toLowerCase searchTerm).toList <:+: (toLowerCase text).toList) ∧
      (statusFilter = "all" ∨ order.status = some statusFilter) := by
  simp only [keepsOrder, decide_eq_true_eq, jsAnd_iff, jsOr_iff, fieldIncludes_iff,
    Bool.or_eq_true]
  constructor
  · rintro ⟨(⟨text, hf, hi⟩ | ⟨text, hf, hi⟩) | ⟨text, hf, hi⟩, hstatus⟩
    · exact ⟨⟨text, Or.inl hf, hi⟩, hstatus⟩
    · exact ⟨⟨text, Or.inr (Or.inl hf), hi⟩, hstatus⟩
    · exact ⟨⟨text, Or.inr (Or.inr hf), hi⟩, hstatus⟩
  · rintro ⟨⟨text, hf | hf | hf, hi⟩, hstatus⟩
    · exact ⟨Or.inl (Or.inl ⟨text, hf, hi⟩), hstatus⟩
    · exact ⟨Or.inl (Or.inr ⟨text, hf, hi⟩), hstatus⟩
    · exact ⟨Or.inr ⟨text, hf, hi⟩, hstatus⟩

/-! ## The orders list: claims -/

/-- C28: `filteredOrders` is a sublist of `orders` in the same order; an order is
in it exactly when it is in `orders`, the lower-cased search term occurs in the
lower-cased `order_number`, `description` or `destination` (a missing field never
matches), and `statusFilter` is `all` or equals the status of the order; and no
order occurs in it more often than in `orders`. -/
theorem filteredOrders_is_matching_sublist (toLowerCase : String → String)
    (orders : List Order) (searchTerm statusFilter : String) :
    List.Sublist (filteredOrders toLowerCase orders searchTerm statusFilter) orders ∧
    (∀ order, order ∈ filteredOrders toLowerCase orders searchTerm statusFilter ↔
      order ∈ orders ∧
      (∃ text, (order.order_number = some text ∨ order.description = some text ∨
          order.destination = some text) ∧
        (toLowerCase searchTerm).toList <:+: (toLowerCase text).toList) ∧
      (statusFilter = "all" ∨ order.status = some statusFilter)) ∧
    (∀ order, (filteredOrders toLowerCase orders searchTerm statusFilter).count order
      ≤ orders.count order) ∧
    (filteredOrders asciiLower sampleOrders "wc" "all").map (fun order => order.id) = [1, 2] ∧
    (filteredOrders asciiLower sampleOrders "" "delivered").map (fun order => order.id)
      = [1] := by
  refine ⟨List.filter_sublist _, ?_, ?_, by decide, by decide⟩
  · intro order
    simp only [filteredOrders, List.mem_filter, keepsOrder_iff]
  · intro order
    exact (List.filter_sublist _).count_le _

end WCompany
